import Mathlib

/-!
# MCL64 addressing-mode engine and opcode dispatch

A shallow embedding of `addressing_modes.cpp` and `opcode_dispatch.h`.

* The globals `register_pc`, `effective_address` (both `uint16_t`) and
  `register_x`, `register_y`, `ea_data` (all `uint8_t`) become the fields of `Cpu`.
  They are natural numbers; every assignment of the source that narrows an `int`
  to `uint16_t` or `uint8_t` is an explicit `% 65536` or `% 256`.
* `read_byte` and `write_byte` are external functions of the source.  They are
  modelled over an arbitrary `Device`: a read returns a value and may change the
  state of the outside world, a write changes it.  Every call is also appended to
  `Cpu.trace`, the ordered record of bus transactions.
* The macro `SPEEDUP` is a parameter `speedup` of the routines that test it; the
  header fixes it to `SPEEDUP = 0`.
-/

namespace MCL64

/-- One bus transaction: the 16-bit address and the byte transferred. -/
inductive BusEvent where
  | read (addr data : Nat)
  | write (addr data : Nat)
  deriving DecidableEq, Repr

/-- The outside world on the bus, with state `β`: what a read at an address delivers
(and the state afterwards), and the state after a write. -/
structure Device (β : Type) where
  read : β → Nat → Nat × β
  write : β → Nat → Nat → β

/-- The processor context used by the addressing-mode engine, the state of the bus
and the record of the bus transactions issued so far. -/
structure Cpu (β : Type) where
  register_pc : Nat
  effective_address : Nat
  register_x : Nat
  register_y : Nat
  ea_data : Nat
  bus : β
  trace : List BusEvent

/-- The value of `#define SPEEDUP 0` in `addressing_modes.h`. -/
def SPEEDUP : Nat := 0

/-- The values of the globals fit their C types. -/
def Cpu.WF {β : Type} (s : Cpu β) : Prop :=
  s.register_pc < 65536 ∧ s.effective_address < 65536 ∧
  s.register_x < 256 ∧ s.register_y < 256 ∧ s.ea_data < 256

instance {β : Type} (s : Cpu β) : Decidable s.WF := by
  unfold Cpu.WF; infer_instance

/-- The external `uint8_t read_byte(uint16_t local_address)`: the argument is narrowed
to 16 bits, the result to 8 bits; the transaction is recorded. -/
def read_byte {β : Type} (dev : Device β) (local_address : Nat) (s : Cpu β) : Nat × Cpu β :=
  let a := local_address % 65536
  let r := dev.read s.bus a
  let d := r.1 % 256
  (d, { s with bus := r.2, trace := s.trace ++ [BusEvent.read a d] })

/-- The external `void write_byte(uint16_t local_address, uint8_t local_write_data)`. -/
def write_byte {β : Type} (dev : Device β) (local_address local_write_data : Nat)
    (s : Cpu β) : Cpu β :=
  let a := local_address % 65536
  let d := local_write_data % 256
  { s with bus := dev.write s.bus a d, trace := s.trace ++ [BusEvent.write a d] }

/-- `Fetch_Immediate`: `register_pc++; ea_data = read_byte(register_pc); return ea_data;` -/
def Fetch_Immediate {β : Type} (dev : Device β) (s : Cpu β) : Nat × Cpu β :=
  let s1 := { s with register_pc := (s.register_pc + 1) % 65536 }
  let r := read_byte dev s1.register_pc s1
  let s2 := { r.2 with ea_data := r.1 }
  (s2.ea_data, s2)

/-- `Fetch_ZeroPage`. -/
def Fetch_ZeroPage {β : Type} (dev : Device β) (s : Cpu β) : Nat × Cpu β :=
  let r := Fetch_Immediate dev s
  let s1 := { r.2 with effective_address := r.1 }
  let r2 := read_byte dev s1.effective_address s1
  let s2 := { r2.2 with ea_data := r2.1 }
  (s2.ea_data, s2)

/-- `Fetch_ZeroPage_X`. -/
def Fetch_ZeroPage_X {β : Type} (dev : Device β) (speedup : Nat) (s : Cpu β) : Nat × Cpu β :=
  let r := Fetch_Immediate dev s
  let bal := r.1
  let s1 := if speedup = 0 then (read_byte dev (r.2.register_pc + 1) r.2).2 else r.2
  let s2 := { s1 with effective_address := 0x00FF &&& (bal + s1.register_x) }
  let r3 := read_byte dev s2.effective_address s2
  let s3 := { r3.2 with ea_data := r3.1 }
  (s3.ea_data, s3)

/-- `Fetch_ZeroPage_Y`. -/
def Fetch_ZeroPage_Y {β : Type} (dev : Device β) (speedup : Nat) (s : Cpu β) : Nat × Cpu β :=
  let r := Fetch_Immediate dev s
  let bal := r.1
  let s1 := if speedup = 0 then (read_byte dev (r.2.register_pc + 1) r.2).2 else r.2
  let s2 := { s1 with effective_address := 0x00FF &&& (bal + s1.register_y) }
  let r3 := read_byte dev s2.effective_address s2
  let s3 := { r3.2 with ea_data := r3.1 }
  (s3.ea_data, s3)

/-- `Calculate_Absolute`: the two operand bytes, low first, form `effective_address`,
which is also the value returned. -/
def Calculate_Absolute {β : Type} (dev : Device β) (s : Cpu β) : Nat × Cpu β :=
  let r1 := Fetch_Immediate dev s
  let adl := r1.1
  let r2 := Fetch_Immediate dev r1.2
  let adh := (r2.1 <<< 8) % 65536
  let s1 := { r2.2 with effective_address := (adl + adh) % 65536 }
  (s1.effective_address, s1)

/-- `Fetch_Absolute`. -/
def Fetch_Absolute {β : Type} (dev : Device β) (s : Cpu β) : Nat × Cpu β :=
  let r1 := Fetch_Immediate dev s
  let adl := r1.1
  let r2 := Fetch_Immediate dev r1.2
  let adh := (r2.1 <<< 8) % 65536
  let s1 := { r2.2 with effective_address := (adl + adh) % 65536 }
  let r3 := read_byte dev s1.effective_address s1
  let s2 := { r3.2 with ea_data := r3.1 }
  (s2.ea_data, s2)

/-- `Fetch_Absolute_X`; `page_cross_check` is the `uint8_t` argument. -/
def Fetch_Absolute_X {β : Type} (dev : Device β) (speedup : Nat) (page_cross_check : Nat)
    (s : Cpu β) : Nat × Cpu β :=
  let r1 := Fetch_Immediate dev s
  let bal := r1.1
  let r2 := Fetch_Immediate dev r1.2
  let bah := (r2.1 <<< 8) % 65536
  let s1 := { r2.2 with effective_address := (bah + bal + r2.2.register_x) % 65536 }
  let r3 := read_byte dev s1.effective_address s1
  let s2 := { r3.2 with ea_data := r3.1 }
  if speedup = 0 ∧ page_cross_check = 1 ∧
      (0xFF00 &&& s2.effective_address) ≠ (0xFF00 &&& bah) then
    let r4 := read_byte dev s2.effective_address s2
    let s3 := { r4.2 with ea_data := r4.1 }
    (s3.ea_data, s3)
  else
    (s2.ea_data, s2)

/-- `Fetch_Absolute_Y`; `page_cross_check` is the `uint8_t` argument. -/
def Fetch_Absolute_Y {β : Type} (dev : Device β) (speedup : Nat) (page_cross_check : Nat)
    (s : Cpu β) : Nat × Cpu β :=
  let r1 := Fetch_Immediate dev s
  let bal := r1.1
  let r2 := Fetch_Immediate dev r1.2
  let bah := (r2.1 <<< 8) % 65536
  let s1 := { r2.2 with effective_address := (bah + bal + r2.2.register_y) % 65536 }
  let r3 := read_byte dev s1.effective_address s1
  let s2 := { r3.2 with ea_data := r3.1 }
  if speedup = 0 ∧ page_cross_check = 1 ∧
      (0xFF00 &&& s2.effective_address) ≠ (0xFF00 &&& bah) then
    let r4 := read_byte dev s2.effective_address s2
    let s3 := { r4.2 with ea_data := r4.1 }
    (s3.ea_data, s3)
  else
    (s2.ea_data, s2)

/-- `Fetch_Indexed_Indirect_X`. -/
def Fetch_Indexed_Indirect_X {β : Type} (dev : Device β) (s : Cpu β) : Nat × Cpu β :=
  let r1 := Fetch_Immediate dev s
  let bal := (r1.1 + r1.2.register_x) % 65536
  let r2 := read_byte dev bal r1.2
  let r3 := read_byte dev (0xFF &&& bal) r2.2
  let adl := r3.1
  let r4 := read_byte dev (0xFF &&& (bal + 1)) r3.2
  let adh := (r4.1 <<< 8) % 65536
  let s1 := { r4.2 with effective_address := (adh + adl) % 65536 }
  let r5 := read_byte dev s1.effective_address s1
  let s2 := { r5.2 with ea_data := r5.1 }
  (s2.ea_data, s2)

/-- `Fetch_Indexed_Indirect_Y`; `page_cross_check` is the `uint8_t` argument. -/
def Fetch_Indexed_Indirect_Y {β : Type} (dev : Device β) (speedup : Nat)
    (page_cross_check : Nat) (s : Cpu β) : Nat × Cpu β :=
  let r1 := Fetch_Immediate dev s
  let ial := r1.1
  let r2 := read_byte dev (0xFF &&& ial) r1.2
  let bal := r2.1
  let r3 := read_byte dev (0xFF &&& (ial + 1)) r2.2
  let bah := (r3.1 <<< 8) % 65536
  let s1 := { r3.2 with effective_address := (bah + bal + r3.2.register_y) % 65536 }
  let r4 := read_byte dev s1.effective_address s1
  let s2 := { r4.2 with ea_data := r4.1 }
  if speedup = 0 ∧ page_cross_check = 1 ∧
      (0xFF00 &&& s2.effective_address) ≠ (0xFF00 &&& bah) then
    let r5 := read_byte dev s2.effective_address s2
    let s3 := { r5.2 with ea_data := r5.1 }
    (s3.ea_data, s3)
  else
    (s2.ea_data, s2)

/-- `Write_ZeroPage`. -/
def Write_ZeroPage {β : Type} (dev : Device β) (local_data : Nat) (s : Cpu β) : Cpu β :=
  let r := Fetch_Immediate dev s
  let s1 := { r.2 with effective_address := r.1 }
  write_byte dev s1.effective_address local_data s1

/-- `Write_Absolute`. -/
def Write_Absolute {β : Type} (dev : Device β) (local_data : Nat) (s : Cpu β) : Cpu β :=
  let r1 := Fetch_Immediate dev s
  let s1 := { r1.2 with effective_address := r1.1 }
  let r2 := Fetch_Immediate dev s1
  let s2 := { r2.2 with effective_address := ((r2.1 <<< 8) + r2.2.effective_address) % 65536 }
  write_byte dev s2.effective_address local_data s2

/-- `Write_ZeroPage_X`. -/
def Write_ZeroPage_X {β : Type} (dev : Device β) (speedup : Nat) (local_data : Nat)
    (s : Cpu β) : Cpu β :=
  let r := Fetch_Immediate dev s
  let s1 := { r.2 with effective_address := r.1 }
  let s2 := if speedup = 0 then (read_byte dev s1.effective_address s1).2 else s1
  write_byte dev (0x00FF &&& (s2.effective_address + s2.register_x)) local_data s2

/-- `Write_ZeroPage_Y`. -/
def Write_ZeroPage_Y {β : Type} (dev : Device β) (speedup : Nat) (local_data : Nat)
    (s : Cpu β) : Cpu β :=
  let r := Fetch_Immediate dev s
  let s1 := { r.2 with effective_address := r.1 }
  let s2 := if speedup = 0 then (read_byte dev s1.effective_address s1).2 else s1
  write_byte dev (0x00FF &&& (s2.effective_address + s2.register_y)) local_data s2

/-- `Write_Absolute_X`. -/
def Write_Absolute_X {β : Type} (dev : Device β) (speedup : Nat) (local_data : Nat)
    (s : Cpu β) : Cpu β :=
  let r1 := Fetch_Immediate dev s
  let bal := r1.1
  let r2 := Fetch_Immediate dev r1.2
  let bah := (r2.1 <<< 8) % 65536
  let s1 := { r2.2 with effective_address := (bal + bah + r2.2.register_x) % 65536 }
  let s2 := if speedup = 0 then (read_byte dev s1.effective_address s1).2 else s1
  write_byte dev s2.effective_address local_data s2

/-- `Write_Absolute_Y`. -/
def Write_Absolute_Y {β : Type} (dev : Device β) (speedup : Nat) (local_data : Nat)
    (s : Cpu β) : Cpu β :=
  let r1 := Fetch_Immediate dev s
  let bal := r1.1
  let r2 := Fetch_Immediate dev r1.2
  let bah := (r2.1 <<< 8) % 65536
  let s1 := { r2.2 with effective_address := (bal + bah + r2.2.register_y) % 65536 }
  let s2 := (read_byte dev s1.effective_address s1).2
  let s3 :=
    if speedup = 0 then
      if (0xFF00 &&& s2.effective_address) ≠ (0xFF00 &&& bah) then
        (read_byte dev s2.effective_address s2).2
      else s2
    else s2
  write_byte dev s3.effective_address local_data s3

/-- `Write_Indexed_Indirect_X`. -/
def Write_Indexed_Indirect_X {β : Type} (dev : Device β) (local_data : Nat)
    (s : Cpu β) : Cpu β :=
  let r1 := Fetch_Immediate dev s
  let bal := r1.1
  let r2 := read_byte dev bal r1.2
  let r3 := read_byte dev (0xFF &&& (bal + r2.2.register_x)) r2.2
  let adl := r3.1
  let r4 := read_byte dev (0xFF &&& (bal + r3.2.register_x + 1)) r3.2
  let adh := (r4.1 <<< 8) % 65536
  let s1 := { r4.2 with effective_address := (adh + adl) % 65536 }
  write_byte dev s1.effective_address local_data s1

/-- `Write_Indexed_Indirect_Y`. -/
def Write_Indexed_Indirect_Y {β : Type} (dev : Device β) (speedup : Nat) (local_data : Nat)
    (s : Cpu β) : Cpu β :=
  let r1 := Fetch_Immediate dev s
  let ial := r1.1
  let r2 := read_byte dev ial r1.2
  let bal := r2.1
  let r3 := read_byte dev (ial + 1) r2.2
  let bah := (r3.1 <<< 8) % 65536
  let s1 := { r3.2 with effective_address := (bah + bal + r3.2.register_y) % 65536 }
  let s2 := if speedup = 0 then (read_byte dev s1.effective_address s1).2 else s1
  write_byte dev s2.effective_address local_data s2

/-- `Double_WriteBack`. -/
def Double_WriteBack {β : Type} (dev : Device β) (speedup : Nat) (local_data : Nat)
    (s : Cpu β) : Cpu β :=
  let s1 := if speedup = 0 then write_byte dev s.effective_address s.ea_data s else s
  write_byte dev s1.effective_address local_data s1

/-- A bus that is plain memory: a read returns the stored byte and changes nothing,
a write replaces the byte at the address. -/
def ram : Device (Nat → Nat) where
  read := fun m a => (m a, m)
  write := fun m a d => fun b => if b = a then d else m b

/-- The first operand byte of the instruction stream: what `Fetch_Immediate` delivers
from the state `s`. -/
def operand1 {β : Type} (dev : Device β) (s : Cpu β) : Nat :=
  (Fetch_Immediate dev s).1

/-- The second operand byte: what the second `Fetch_Immediate` in a row delivers. -/
def operand2 {β : Type} (dev : Device β) (s : Cpu β) : Nat :=
  (Fetch_Immediate dev (Fetch_Immediate dev s).2).1

/-- The page-crossed condition of the source, `(0xFF00 & ea) != (0xFF00 & bah)`, for an
effective address `ea` and the base's high byte `hi` (so `bah = hi << 8`). -/
def page_crossed (ea hi : Nat) : Prop :=
  (0xFF00 &&& ea) ≠ (0xFF00 &&& ((hi <<< 8) % 65536))

instance (ea hi : Nat) : Decidable (page_crossed ea hi) := by
  unfold page_crossed; infer_instance

/-- The reads of the first `k` operand bytes from the state `s`: `k` calls of
`Fetch_Immediate` in a row, each reading at the address `register_pc` holds right after
its increment. -/
def operand_reads {β : Type} (dev : Device β) : Nat → Cpu β → List BusEvent
  | 0, _ => []
  | k + 1, s =>
    BusEvent.read ((s.register_pc + 1) % 65536) (Fetch_Immediate dev s).1
      :: operand_reads dev k (Fetch_Immediate dev s).2

/-- A routine that started in `s` and ended in `t` consumed `k` operand bytes: it advanced
`register_pc` by `k` (mod 65536) and its first `k` bus transactions are the operand
reads. -/
def consumes_operands {β : Type} (dev : Device β) (k : Nat) (s t : Cpu β) : Prop :=
  t.register_pc = (s.register_pc + k) % 65536 ∧
  ∃ rest : List BusEvent, t.trace = s.trace ++ (operand_reads dev k s ++ rest)

/-- A fetch routine that started in `s` and returned `r`: its last bus transaction is a
read at the final `effective_address`, that read delivered the returned value, and the
returned value is the final `ea_data`. -/
def ends_with_data_read {β : Type} (s : Cpu β) (r : Nat × Cpu β) : Prop :=
  (∃ pre : List BusEvent,
      r.2.trace = s.trace ++ (pre ++ [BusEvent.read r.2.effective_address r.1])) ∧
  r.1 = r.2.ea_data

/-- The eight store routines over plain memory, with the fidelity flag `speedup`. -/
def store_routines (speedup : Nat) :
    List (Nat → Cpu (Nat → Nat) → Cpu (Nat → Nat)) :=
  [Write_ZeroPage ram, Write_Absolute ram, Write_ZeroPage_X ram speedup,
   Write_ZeroPage_Y ram speedup, Write_Absolute_X ram speedup, Write_Absolute_Y ram speedup,
   Write_Indexed_Indirect_X ram, Write_Indexed_Indirect_Y ram speedup]

/-- The eight fetch routines with an effective address over plain memory, with the
fidelity flag `speedup` and the argument `page_cross_check`. -/
def fetch_routines (speedup page_cross_check : Nat) :
    List (Cpu (Nat → Nat) → Nat × Cpu (Nat → Nat)) :=
  [Fetch_ZeroPage ram, Fetch_ZeroPage_X ram speedup, Fetch_ZeroPage_Y ram speedup,
   Fetch_Absolute ram, Fetch_Absolute_X ram speedup page_cross_check,
   Fetch_Absolute_Y ram speedup page_cross_check, Fetch_Indexed_Indirect_X ram,
   Fetch_Indexed_Indirect_Y ram speedup page_cross_check]

/-- Over plain memory, a fetch that started in `s` and returned `r` left the memory as
it was and returned the byte stored at the final `effective_address`. -/
def reads_memory (s : Cpu (Nat → Nat)) (r : Nat × Cpu (Nat → Nat)) : Prop :=
  r.2.bus = s.bus ∧ r.1 = s.bus r.2.effective_address % 256

/-- Over plain memory, a store of `v` ended in `t`: its last transaction is a write of
the byte `v` at some address, and the memory holds that byte there. -/
def stores_byte (v : Nat) (t : Cpu (Nat → Nat)) : Prop :=
  ∃ a : Nat, t.trace.getLast? = some (BusEvent.write a (v % 256)) ∧ t.bus a = v % 256

/-! ## Opcode dispatch (`opcode_dispatch.h`) -/

/-- The functions `execute_opcode` can call: `irq_handler(arg)` and the handlers
`opcode_0xNN()`, identified by `NN`. -/
inductive Handler where
  | irq_handler (arg : Nat)
  | opcode (nn : Nat)
  deriving DecidableEq, Repr

/-- The `case` arms of the `switch (instruction)` of `execute_opcode`, in source order:
the case label and the call the arm makes before its `break`. -/
def switch_cases : List (Nat × Handler) :=
  [
    (0x00, Handler.irq_handler 0x1), (0x01, Handler.opcode 0x01), (0x02, Handler.opcode 0x02), (0x03, Handler.opcode 0x03),
    (0x04, Handler.opcode 0x04), (0x05, Handler.opcode 0x05), (0x06, Handler.opcode 0x06), (0x07, Handler.opcode 0x07),
    (0x08, Handler.opcode 0x08), (0x09, Handler.opcode 0x09), (0x0A, Handler.opcode 0x0A), (0x0B, Handler.opcode 0x0B),
    (0x0C, Handler.opcode 0x0C), (0x0D, Handler.opcode 0x0D), (0x0E, Handler.opcode 0x0E), (0x0F, Handler.opcode 0x0F),
    (0x10, Handler.opcode 0x10), (0x11, Handler.opcode 0x11), (0x12, Handler.opcode 0x12), (0x13, Handler.opcode 0x13),
    (0x14, Handler.opcode 0x14), (0x15, Handler.opcode 0x15), (0x16, Handler.opcode 0x16), (0x17, Handler.opcode 0x17),
    (0x18, Handler.opcode 0x18), (0x19, Handler.opcode 0x19), (0x1A, Handler.opcode 0xEA), (0x1B, Handler.opcode 0x1B),
    (0x1C, Handler.opcode 0x1C), (0x1D, Handler.opcode 0x1D), (0x1E, Handler.opcode 0x1E), (0x1F, Handler.opcode 0x1F),
    (0x20, Handler.opcode 0x20), (0x21, Handler.opcode 0x21), (0x22, Handler.opcode 0x22), (0x23, Handler.opcode 0x23),
    (0x24, Handler.opcode 0x24), (0x25, Handler.opcode 0x25), (0x26, Handler.opcode 0x26), (0x27, Handler.opcode 0x27),
    (0x28, Handler.opcode 0x28), (0x29, Handler.opcode 0x29), (0x2A, Handler.opcode 0x2A), (0x2B, Handler.opcode 0x2B),
    (0x2C, Handler.opcode 0x2C), (0x2D, Handler.opcode 0x2D), (0x2E, Handler.opcode 0x2E), (0x2F, Handler.opcode 0x2F),
    (0x30, Handler.opcode 0x30), (0x31, Handler.opcode 0x31), (0x32, Handler.opcode 0x32), (0x33, Handler.opcode 0x33),
    (0x34, Handler.opcode 0x34), (0x35, Handler.opcode 0x35), (0x36, Handler.opcode 0x36), (0x37, Handler.opcode 0x37),
    (0x38, Handler.opcode 0x38), (0x39, Handler.opcode 0x39), (0x3A, Handler.opcode 0xEA), (0x3B, Handler.opcode 0x3B),
    (0x3C, Handler.opcode 0x3C), (0x3D, Handler.opcode 0x3D), (0x3E, Handler.opcode 0x3E), (0x3F, Handler.opcode 0x3F),
    (0x40, Handler.opcode 0x40), (0x41, Handler.opcode 0x41), (0x42, Handler.opcode 0x42), (0x43, Handler.opcode 0x43),
    (0x44, Handler.opcode 0x44), (0x45, Handler.opcode 0x45), (0x46, Handler.opcode 0x46), (0x47, Handler.opcode 0x47),
    (0x48, Handler.opcode 0x48), (0x49, Handler.opcode 0x49), (0x4A, Handler.opcode 0x4A), (0x4B, Handler.opcode 0x4B),
    (0x4C, Handler.opcode 0x4C), (0x4D, Handler.opcode 0x4D), (0x4E, Handler.opcode 0x4E), (0x4F, Handler.opcode 0x4F),
    (0x50, Handler.opcode 0x50), (0x51, Handler.opcode 0x51), (0x52, Handler.opcode 0x52), (0x53, Handler.opcode 0x53),
    (0x54, Handler.opcode 0x54), (0x55, Handler.opcode 0x55), (0x56, Handler.opcode 0x56), (0x57, Handler.opcode 0x57),
    (0x58, Handler.opcode 0x58), (0x59, Handler.opcode 0x59), (0x5A, Handler.opcode 0xEA), (0x5B, Handler.opcode 0x5B),
    (0x5C, Handler.opcode 0x5C), (0x5D, Handler.opcode 0x5D), (0x5E, Handler.opcode 0x5E), (0x5F, Handler.opcode 0x5F),
    (0x60, Handler.opcode 0x60), (0x61, Handler.opcode 0x61), (0x62, Handler.opcode 0x62), (0x63, Handler.opcode 0x63),
    (0x64, Handler.opcode 0x64), (0x65, Handler.opcode 0x65), (0x66, Handler.opcode 0x66), (0x67, Handler.opcode 0x67),
    (0x68, Handler.opcode 0x68), (0x69, Handler.opcode 0x69), (0x6A, Handler.opcode 0x6A), (0x6B, Handler.opcode 0x6B),
    (0x6C, Handler.opcode 0x6C), (0x6D, Handler.opcode 0x6D), (0x6E, Handler.opcode 0x6E), (0x6F, Handler.opcode 0x6F),
    (0x70, Handler.opcode 0x70), (0x71, Handler.opcode 0x71), (0x72, Handler.opcode 0x72), (0x73, Handler.opcode 0x73),
    (0x74, Handler.opcode 0x74), (0x75, Handler.opcode 0x75), (0x76, Handler.opcode 0x76), (0x77, Handler.opcode 0x77),
    (0x78, Handler.opcode 0x78), (0x79, Handler.opcode 0x79), (0x7A, Handler.opcode 0xEA), (0x7B, Handler.opcode 0x7B),
    (0x7C, Handler.opcode 0x7C), (0x7D, Handler.opcode 0x7D), (0x7E, Handler.opcode 0x7E), (0x7F, Handler.opcode 0x7F),
    (0x80, Handler.opcode 0x80), (0x81, Handler.opcode 0x81), (0x82, Handler.opcode 0x82), (0x83, Handler.opcode 0x83),
    (0x84, Handler.opcode 0x84), (0x85, Handler.opcode 0x85), (0x86, Handler.opcode 0x86), (0x87, Handler.opcode 0x87),
    (0x88, Handler.opcode 0x88), (0x89, Handler.opcode 0x89), (0x8A, Handler.opcode 0x8A), (0x8B, Handler.opcode 0x8B),
    (0x8C, Handler.opcode 0x8C), (0x8D, Handler.opcode 0x8D), (0x8E, Handler.opcode 0x8E), (0x8F, Handler.opcode 0x8F),
    (0x90, Handler.opcode 0x90), (0x91, Handler.opcode 0x91), (0x92, Handler.opcode 0x92), (0x93, Handler.opcode 0x93),
    (0x94, Handler.opcode 0x94), (0x95, Handler.opcode 0x95), (0x96, Handler.opcode 0x96), (0x97, Handler.opcode 0x97),
    (0x98, Handler.opcode 0x98), (0x99, Handler.opcode 0x99), (0x9A, Handler.opcode 0x9A), (0x9B, Handler.opcode 0x9B),
    (0x9C, Handler.opcode 0x9C), (0x9D, Handler.opcode 0x9D), (0x9E, Handler.opcode 0x9E), (0x9F, Handler.opcode 0x9F),
    (0xA0, Handler.opcode 0xA0), (0xA1, Handler.opcode 0xA1), (0xA2, Handler.opcode 0xA2), (0xA3, Handler.opcode 0xA3),
    (0xA4, Handler.opcode 0xA4), (0xA5, Handler.opcode 0xA5), (0xA6, Handler.opcode 0xA6), (0xA7, Handler.opcode 0xA7),
    (0xA8, Handler.opcode 0xA8), (0xA9, Handler.opcode 0xA9), (0xAA, Handler.opcode 0xAA), (0xAB, Handler.opcode 0xAB),
    (0xAC, Handler.opcode 0xAC), (0xAD, Handler.opcode 0xAD), (0xAE, Handler.opcode 0xAE), (0xAF, Handler.opcode 0xAF),
    (0xB0, Handler.opcode 0xB0), (0xB1, Handler.opcode 0xB1), (0xB2, Handler.opcode 0xB2), (0xB3, Handler.opcode 0xB3),
    (0xB4, Handler.opcode 0xB4), (0xB5, Handler.opcode 0xB5), (0xB6, Handler.opcode 0xB6), (0xB7, Handler.opcode 0xB7),
    (0xB8, Handler.opcode 0xB8), (0xB9, Handler.opcode 0xB9), (0xBA, Handler.opcode 0xBA), (0xBB, Handler.opcode 0xBB),
    (0xBC, Handler.opcode 0xBC), (0xBD, Handler.opcode 0xBD), (0xBE, Handler.opcode 0xBE), (0xBF, Handler.opcode 0xBF),
    (0xC0, Handler.opcode 0xC0), (0xC1, Handler.opcode 0xC1), (0xC2, Handler.opcode 0xC2), (0xC3, Handler.opcode 0xC3),
    (0xC4, Handler.opcode 0xC4), (0xC5, Handler.opcode 0xC5), (0xC6, Handler.opcode 0xC6), (0xC7, Handler.opcode 0xC7),
    (0xC8, Handler.opcode 0xC8), (0xC9, Handler.opcode 0xC9), (0xCA, Handler.opcode 0xCA), (0xCB, Handler.opcode 0xCB),
    (0xCC, Handler.opcode 0xCC), (0xCD, Handler.opcode 0xCD), (0xCE, Handler.opcode 0xCE), (0xCF, Handler.opcode 0xCF),
    (0xD0, Handler.opcode 0xD0), (0xD1, Handler.opcode 0xD1), (0xD2, Handler.opcode 0xD2), (0xD3, Handler.opcode 0xD3),
    (0xD4, Handler.opcode 0xD4), (0xD5, Handler.opcode 0xD5), (0xD6, Handler.opcode 0xD6), (0xD7, Handler.opcode 0xD7),
    (0xD8, Handler.opcode 0xD8), (0xD9, Handler.opcode 0xD9), (0xDA, Handler.opcode 0xEA), (0xDB, Handler.opcode 0xDB),
    (0xDC, Handler.opcode 0xDC), (0xDD, Handler.opcode 0xDD), (0xDE, Handler.opcode 0xDE), (0xDF, Handler.opcode 0xDF),
    (0xE0, Handler.opcode 0xE0), (0xE1, Handler.opcode 0xE1), (0xE2, Handler.opcode 0xE2), (0xE3, Handler.opcode 0xE3),
    (0xE4, Handler.opcode 0xE4), (0xE5, Handler.opcode 0xE5), (0xE6, Handler.opcode 0xE6), (0xE7, Handler.opcode 0xE7),
    (0xE8, Handler.opcode 0xE8), (0xE9, Handler.opcode 0xE9), (0xEA, Handler.opcode 0xEA), (0xEB, Handler.opcode 0xE9),
    (0xEC, Handler.opcode 0xEC), (0xED, Handler.opcode 0xED), (0xEE, Handler.opcode 0xEE), (0xEF, Handler.opcode 0xEF),
    (0xF0, Handler.opcode 0xF0), (0xF1, Handler.opcode 0xF1), (0xF2, Handler.opcode 0xF2), (0xF3, Handler.opcode 0xF3),
    (0xF4, Handler.opcode 0xF4), (0xF5, Handler.opcode 0xF5), (0xF6, Handler.opcode 0xF6), (0xF7, Handler.opcode 0xF7),
    (0xF8, Handler.opcode 0xF8), (0xF9, Handler.opcode 0xF9), (0xFA, Handler.opcode 0xEA), (0xFB, Handler.opcode 0xFB),
    (0xFC, Handler.opcode 0xFC), (0xFD, Handler.opcode 0xFD), (0xFE, Handler.opcode 0xFE), (0xFF, Handler.opcode 0xFF)
  ]

/-- The arm the `switch` selects: the one whose label equals `instruction`; the switch
has no `default`, so a value without a matching label selects nothing. -/
def dispatch (instruction : Nat) : Option Handler :=
  switch_cases.lookup instruction

/-- The externally defined handler bodies, as transformers of the machine state `σ`
(registers, memory and bus activity). -/
structure Handlers (σ : Type) where
  irq_handler : Nat → σ → σ
  opcode : Nat → σ → σ

/-- Calling a handler. -/
def Handler.invoke {σ : Type} (H : Handlers σ) : Handler → σ → σ
  | Handler.irq_handler arg => H.irq_handler arg
  | Handler.opcode nn => H.opcode nn

/-- `execute_opcode`: run the selected arm; without a matching arm nothing is done. -/
def execute_opcode {σ : Type} (H : Handlers σ) (instruction : Nat) (s : σ) : σ :=
  match dispatch instruction with
  | some h => h.invoke H s
  | none => s

/-- Handler bodies that only record the call made, in order. -/
def call_log : Handlers (List Handler) where
  irq_handler := fun arg calls => calls ++ [Handler.irq_handler arg]
  opcode := fun nn calls => calls ++ [Handler.opcode nn]

/-- Whether a call is the call of `irq_handler` (and not of an `opcode_0xNN`). -/
def Handler.is_irq : Handler → Bool
  | Handler.irq_handler _ => true
  | Handler.opcode _ => false

/-- Everything of the state except the record of bus transactions: the registers, the
scratch fields and the state of the bus (the memory contents, over plain memory). -/
def Cpu.logical {β : Type} (s : Cpu β) : Nat × Nat × Nat × Nat × Nat × β :=
  (s.register_pc, s.effective_address, s.ea_data, s.register_x, s.register_y, s.bus)

/-- A concrete machine over plain memory: `register_pc = 0x0800`, the operand bytes
`lo`, `hi` at `0x0801`, `0x0802`, the byte `0x5A` at `target`, zero elsewhere. -/
def demo (lo hi x y target : Nat) : Cpu (Nat → Nat) where
  register_pc := 0x0800
  effective_address := 0
  register_x := x
  register_y := y
  ea_data := 0
  bus := fun a =>
    if a = 0x0801 then lo else if a = 0x0802 then hi else if a = target then 0x5A else 0
  trace := []

/-! ## Arithmetic of the masks and shifts -/

theorem land_ff (n : Nat) : 0xFF &&& n = n % 256 := by
  rw [Nat.and_comm]; exact Nat.and_pow_two_sub_one_eq_mod n 8

theorem shl_8 (n : Nat) : n <<< 8 = n * 256 := by
  simp [Nat.shiftLeft_eq]

theorem land_ff00 (n : Nat) : 0xFF00 &&& n = (n / 256 % 256) * 256 := by
  apply Nat.eq_of_testBit_eq
  intro i
  have h1 : (0xFF00 : Nat) = 2 ^ 8 * (2 ^ 8 - 1) := by decide
  have h2 : (n / 256 % 256) * 256 = 2 ^ 8 * ((n >>> 8) % 2 ^ 8) := by
    rw [Nat.shiftRight_eq_div_pow, Nat.mul_comm]; rfl
  rw [h2, Nat.testBit_and, h1, Nat.testBit_mul_pow_two, Nat.testBit_mul_pow_two,
    Nat.testBit_two_pow_sub_one, Nat.testBit_mod_two_pow, Nat.testBit_shiftRight]
  by_cases h : i ≥ 8
  · have : 8 + (i - 8) = i := by omega
    simp [h, this]
  · simp [h]

/-! ## The bus primitives and `Fetch_Immediate`, field by field -/

theorem read_byte_lt {β : Type} (dev : Device β) (a : Nat) (s : Cpu β) :
    (read_byte dev a s).1 < 256 :=
  Nat.mod_lt _ (by decide)

theorem read_byte_trace {β : Type} (dev : Device β) (a : Nat) (s : Cpu β) :
    (read_byte dev a s).2.trace
      = s.trace ++ [BusEvent.read (a % 65536) (read_byte dev a s).1] := rfl

theorem read_byte_pc {β : Type} (dev : Device β) (a : Nat) (s : Cpu β) :
    (read_byte dev a s).2.register_pc = s.register_pc := rfl

theorem read_byte_ea {β : Type} (dev : Device β) (a : Nat) (s : Cpu β) :
    (read_byte dev a s).2.effective_address = s.effective_address := rfl

theorem read_byte_x {β : Type} (dev : Device β) (a : Nat) (s : Cpu β) :
    (read_byte dev a s).2.register_x = s.register_x := rfl

theorem read_byte_y {β : Type} (dev : Device β) (a : Nat) (s : Cpu β) :
    (read_byte dev a s).2.register_y = s.register_y := rfl

theorem read_byte_ea_data {β : Type} (dev : Device β) (a : Nat) (s : Cpu β) :
    (read_byte dev a s).2.ea_data = s.ea_data := rfl

theorem write_byte_trace {β : Type} (dev : Device β) (a d : Nat) (s : Cpu β) :
    (write_byte dev a d s).trace
      = s.trace ++ [BusEvent.write (a % 65536) (d % 256)] := rfl

theorem write_byte_pc {β : Type} (dev : Device β) (a d : Nat) (s : Cpu β) :
    (write_byte dev a d s).register_pc = s.register_pc := rfl

theorem write_byte_ea {β : Type} (dev : Device β) (a d : Nat) (s : Cpu β) :
    (write_byte dev a d s).effective_address = s.effective_address := rfl

theorem write_byte_x {β : Type} (dev : Device β) (a d : Nat) (s : Cpu β) :
    (write_byte dev a d s).register_x = s.register_x := rfl

theorem write_byte_y {β : Type} (dev : Device β) (a d : Nat) (s : Cpu β) :
    (write_byte dev a d s).register_y = s.register_y := rfl

theorem write_byte_ea_data {β : Type} (dev : Device β) (a d : Nat) (s : Cpu β) :
    (write_byte dev a d s).ea_data = s.ea_data := rfl

theorem operand1_lt {β : Type} (dev : Device β) (s : Cpu β) : operand1 dev s < 256 :=
  Nat.mod_lt _ (by decide)

theorem operand2_lt {β : Type} (dev : Device β) (s : Cpu β) : operand2 dev s < 256 :=
  Nat.mod_lt _ (by decide)

theorem Fetch_Immediate_val {β : Type} (dev : Device β) (s : Cpu β) :
    (Fetch_Immediate dev s).1 = operand1 dev s := rfl

theorem Fetch_Immediate_val2 {β : Type} (dev : Device β) (s : Cpu β) :
    (Fetch_Immediate dev (Fetch_Immediate dev s).2).1 = operand2 dev s := rfl

theorem Fetch_Immediate_trace {β : Type} (dev : Device β) (s : Cpu β) :
    (Fetch_Immediate dev s).2.trace
      = s.trace ++ [BusEvent.read ((s.register_pc + 1) % 65536) (Fetch_Immediate dev s).1] := by
  simp only [Fetch_Immediate, read_byte, Nat.mod_mod]

theorem Fetch_Immediate_pc {β : Type} (dev : Device β) (s : Cpu β) :
    (Fetch_Immediate dev s).2.register_pc = (s.register_pc + 1) % 65536 := rfl

theorem Fetch_Immediate_ea {β : Type} (dev : Device β) (s : Cpu β) :
    (Fetch_Immediate dev s).2.effective_address = s.effective_address := rfl

theorem Fetch_Immediate_x {β : Type} (dev : Device β) (s : Cpu β) :
    (Fetch_Immediate dev s).2.register_x = s.register_x := rfl

theorem Fetch_Immediate_y {β : Type} (dev : Device β) (s : Cpu β) :
    (Fetch_Immediate dev s).2.register_y = s.register_y := rfl

theorem Fetch_Immediate_ea_data {β : Type} (dev : Device β) (s : Cpu β) :
    (Fetch_Immediate dev s).2.ea_data = (Fetch_Immediate dev s).1 := rfl

theorem pc_succ_succ (pc : Nat) : ((pc + 1) % 65536 + 1) % 65536 = (pc + 2) % 65536 := by
  omega

/-! ## Address arithmetic -/

theorem mod_256_mod (n : Nat) : n % 256 % 65536 = n % 256 :=
  Nat.mod_eq_of_lt (by omega)

theorem mod_mod_256 (n : Nat) : n % 65536 % 256 = n % 256 := by omega

theorem succ_mod_256 (n : Nat) : (n % 65536 + 1) % 256 = (n + 1) % 256 := by omega

theorem byte_succ_mod_256 (n : Nat) : (n % 256 + 1) % 256 = (n + 1) % 256 := by omega

theorem abs_ea_byte (lo v i : Nat) :
    (((v % 256) <<< 8) % 65536 + lo + i) % 65536 = (lo + 256 * (v % 256) + i) % 65536 := by
  rw [shl_8]; omega

theorem abs_ea_byte_comm (lo v i : Nat) :
    (lo + ((v % 256) <<< 8) % 65536 + i) % 65536 = (lo + 256 * (v % 256) + i) % 65536 := by
  rw [shl_8]; omega

theorem abs_ea_plain (lo v : Nat) :
    (lo % 256 + ((v % 256) <<< 8) % 65536) % 65536 = lo % 256 + 256 * (v % 256) := by
  rw [shl_8]; omega

theorem ptr_ea (lo v : Nat) :
    (((v % 256) <<< 8) % 65536 + lo % 256) % 65536 = lo % 256 + 256 * (v % 256) := by
  rw [shl_8]; omega

theorem ptr_ea_shl (lo v : Nat) :
    (((v % 256) <<< 8) + lo % 256) % 65536 = lo % 256 + 256 * (v % 256) := by
  rw [shl_8]; omega

/-! ## What each fetch routine does, transaction by transaction -/

theorem Fetch_Immediate_run {β : Type} (dev : Device β) (s : Cpu β) :
    (Fetch_Immediate dev s).2.trace
        = s.trace ++ [BusEvent.read ((s.register_pc + 1) % 65536) (operand1 dev s)] ∧
      (Fetch_Immediate dev s).1 = operand1 dev s ∧
      (Fetch_Immediate dev s).2.ea_data = operand1 dev s ∧
      (Fetch_Immediate dev s).2.effective_address = s.effective_address ∧
      (Fetch_Immediate dev s).2.register_pc = (s.register_pc + 1) % 65536 ∧
      (Fetch_Immediate dev s).2.register_x = s.register_x ∧
      (Fetch_Immediate dev s).2.register_y = s.register_y :=
  ⟨Fetch_Immediate_trace dev s, rfl, rfl, rfl, rfl, rfl, rfl⟩

theorem Fetch_ZeroPage_run {β : Type} (dev : Device β) (s : Cpu β) :
    ∃ d : Nat,
      (Fetch_ZeroPage dev s).2.trace
        = s.trace ++ [BusEvent.read ((s.register_pc + 1) % 65536) (operand1 dev s),
            BusEvent.read (operand1 dev s) d] ∧
      (Fetch_ZeroPage dev s).1 = d ∧
      (Fetch_ZeroPage dev s).2.ea_data = d ∧
      (Fetch_ZeroPage dev s).2.effective_address = operand1 dev s ∧
      (Fetch_ZeroPage dev s).2.register_pc = (s.register_pc + 1) % 65536 ∧
      (Fetch_ZeroPage dev s).2.register_x = s.register_x ∧
      (Fetch_ZeroPage dev s).2.register_y = s.register_y := by
  simp only [Fetch_ZeroPage, operand1, Fetch_Immediate, read_byte, Nat.mod_mod, mod_256_mod]
  generalize dev.read s.bus _ = q1
  generalize dev.read q1.2 _ = q2
  apply Exists.intro
  refine ⟨?_, ?_, ?_, ?_, ?_, ?_, ?_⟩ <;> try trivial
  simp only [List.append_assoc, List.singleton_append]

theorem Fetch_ZeroPage_X_run {β : Type} (dev : Device β) (speedup : Nat) (s : Cpu β) :
    ∃ d0 d : Nat,
      (Fetch_ZeroPage_X dev speedup s).2.trace
        = s.trace ++ ([BusEvent.read ((s.register_pc + 1) % 65536) (operand1 dev s)] ++
            (if speedup = 0 then [BusEvent.read ((s.register_pc + 2) % 65536) d0] else []) ++
            [BusEvent.read ((operand1 dev s + s.register_x) % 256) d]) ∧
      (Fetch_ZeroPage_X dev speedup s).1 = d ∧
      (Fetch_ZeroPage_X dev speedup s).2.ea_data = d ∧
      (Fetch_ZeroPage_X dev speedup s).2.effective_address
        = (operand1 dev s + s.register_x) % 256 ∧
      (Fetch_ZeroPage_X dev speedup s).2.register_pc = (s.register_pc + 1) % 65536 ∧
      (Fetch_ZeroPage_X dev speedup s).2.register_x = s.register_x ∧
      (Fetch_ZeroPage_X dev speedup s).2.register_y = s.register_y := by
  by_cases h : speedup = 0
  · simp only [Fetch_ZeroPage_X, operand1, Fetch_Immediate, read_byte, Nat.mod_mod, mod_256_mod,
      pc_succ_succ, land_ff, if_pos h]
    generalize dev.read s.bus _ = q1
    generalize dev.read q1.2 _ = q2
    generalize dev.read q2.2 _ = q3
    apply Exists.intro; apply Exists.intro
    refine ⟨?_, ?_, ?_, ?_, ?_, ?_, ?_⟩ <;> try trivial
    simp only [List.append_assoc, List.singleton_append, List.cons_append, List.nil_append]
    try rfl
  · simp only [Fetch_ZeroPage_X, operand1, Fetch_Immediate, read_byte, Nat.mod_mod, mod_256_mod,
      pc_succ_succ, land_ff, if_neg h]
    generalize dev.read s.bus _ = q1
    generalize dev.read q1.2 _ = q2
    refine Exists.intro 0 ?_
    apply Exists.intro
    refine ⟨?_, ?_, ?_, ?_, ?_, ?_, ?_⟩ <;> try trivial
    simp only [List.append_assoc, List.singleton_append, List.cons_append, List.nil_append,
      List.append_nil]

theorem Fetch_ZeroPage_Y_run {β : Type} (dev : Device β) (speedup : Nat) (s : Cpu β) :
    ∃ d0 d : Nat,
      (Fetch_ZeroPage_Y dev speedup s).2.trace
        = s.trace ++ ([BusEvent.read ((s.register_pc + 1) % 65536) (operand1 dev s)] ++
            (if speedup = 0 then [BusEvent.read ((s.register_pc + 2) % 65536) d0] else []) ++
            [BusEvent.read ((operand1 dev s + s.register_y) % 256) d]) ∧
      (Fetch_ZeroPage_Y dev speedup s).1 = d ∧
      (Fetch_ZeroPage_Y dev speedup s).2.ea_data = d ∧
      (Fetch_ZeroPage_Y dev speedup s).2.effective_address
        = (operand1 dev s + s.register_y) % 256 ∧
      (Fetch_ZeroPage_Y dev speedup s).2.register_pc = (s.register_pc + 1) % 65536 ∧
      (Fetch_ZeroPage_Y dev speedup s).2.register_x = s.register_x ∧
      (Fetch_ZeroPage_Y dev speedup s).2.register_y = s.register_y := by
  by_cases h : speedup = 0
  · simp only [Fetch_ZeroPage_Y, operand1, Fetch_Immediate, read_byte, Nat.mod_mod, mod_256_mod,
      pc_succ_succ, land_ff, if_pos h]
    generalize dev.read s.bus _ = q1
    generalize dev.read q1.2 _ = q2
    generalize dev.read q2.2 _ = q3
    apply Exists.intro; apply Exists.intro
    refine ⟨?_, ?_, ?_, ?_, ?_, ?_, ?_⟩ <;> try trivial
    simp only [List.append_assoc, List.singleton_append, List.cons_append, List.nil_append]
    try rfl
  · simp only [Fetch_ZeroPage_Y, operand1, Fetch_Immediate, read_byte, Nat.mod_mod, mod_256_mod,
      pc_succ_succ, land_ff, if_neg h]
    generalize dev.read s.bus _ = q1
    generalize dev.read q1.2 _ = q2
    refine Exists.intro 0 ?_
    apply Exists.intro
    refine ⟨?_, ?_, ?_, ?_, ?_, ?_, ?_⟩ <;> try trivial
    simp only [List.append_assoc, List.singleton_append, List.cons_append, List.nil_append,
      List.append_nil]

theorem Calculate_Absolute_run {β : Type} (dev : Device β) (s : Cpu β) :
    (Calculate_Absolute dev s).2.trace
        = s.trace ++ [BusEvent.read ((s.register_pc + 1) % 65536) (operand1 dev s),
            BusEvent.read ((s.register_pc + 2) % 65536) (operand2 dev s)] ∧
      (Calculate_Absolute dev s).1 = operand1 dev s + 256 * operand2 dev s ∧
      (Calculate_Absolute dev s).2.ea_data = operand2 dev s ∧
      (Calculate_Absolute dev s).2.effective_address
        = operand1 dev s + 256 * operand2 dev s ∧
      (Calculate_Absolute dev s).2.register_pc = (s.register_pc + 2) % 65536 ∧
      (Calculate_Absolute dev s).2.register_x = s.register_x ∧
      (Calculate_Absolute dev s).2.register_y = s.register_y := by
  simp only [Calculate_Absolute, operand1, operand2, Fetch_Immediate, read_byte, Nat.mod_mod,
    pc_succ_succ, abs_ea_plain]
  generalize dev.read s.bus _ = q1
  generalize dev.read q1.2 _ = q2
  refine ⟨?_, ?_, ?_, ?_, ?_, ?_, ?_⟩ <;> try trivial
  simp only [List.append_assoc, List.singleton_append]

theorem Fetch_Absolute_run {β : Type} (dev : Device β) (s : Cpu β) :
    ∃ d : Nat,
      (Fetch_Absolute dev s).2.trace
        = s.trace ++ [BusEvent.read ((s.register_pc + 1) % 65536) (operand1 dev s),
            BusEvent.read ((s.register_pc + 2) % 65536) (operand2 dev s),
            BusEvent.read (operand1 dev s + 256 * operand2 dev s) d] ∧
      (Fetch_Absolute dev s).1 = d ∧
      (Fetch_Absolute dev s).2.ea_data = d ∧
      (Fetch_Absolute dev s).2.effective_address = operand1 dev s + 256 * operand2 dev s ∧
      (Fetch_Absolute dev s).2.register_pc = (s.register_pc + 2) % 65536 ∧
      (Fetch_Absolute dev s).2.register_x = s.register_x ∧
      (Fetch_Absolute dev s).2.register_y = s.register_y := by
  have hlt : ∀ a b : Nat, (a % 256 + 256 * (b % 256)) % 65536 = a % 256 + 256 * (b % 256) :=
    fun a b => Nat.mod_eq_of_lt (by omega)
  simp only [Fetch_Absolute, operand1, operand2, Fetch_Immediate, read_byte, Nat.mod_mod,
    pc_succ_succ, abs_ea_plain, hlt]
  generalize dev.read s.bus _ = q1
  generalize dev.read q1.2 _ = q2
  generalize dev.read q2.2 _ = q3
  apply Exists.intro
  refine ⟨?_, ?_, ?_, ?_, ?_, ?_, ?_⟩ <;> try trivial
  simp only [List.append_assoc, List.singleton_append, List.cons_append, List.nil_append]
  try rfl

/-- The bus transactions and final state of `Fetch_Absolute_X`: the two operand reads,
the data read at the effective address, and a second read at the same address exactly
when the condition of the source holds. -/
theorem Fetch_Absolute_X_run {β : Type} (dev : Device β) (speedup pcc : Nat) (s : Cpu β) :
    ∃ d1 d2 : Nat,
      (Fetch_Absolute_X dev speedup pcc s).2.trace
        = s.trace ++
          ([BusEvent.read ((s.register_pc + 1) % 65536) (operand1 dev s),
            BusEvent.read ((s.register_pc + 2) % 65536) (operand2 dev s),
            BusEvent.read ((operand1 dev s + 256 * operand2 dev s + s.register_x) % 65536) d1]
          ++ (if speedup = 0 ∧ pcc = 1 ∧
                page_crossed ((operand1 dev s + 256 * operand2 dev s + s.register_x) % 65536)
                  (operand2 dev s)
              then [BusEvent.read
                ((operand1 dev s + 256 * operand2 dev s + s.register_x) % 65536) d2]
              else [])) ∧
      (Fetch_Absolute_X dev speedup pcc s).1
        = (if speedup = 0 ∧ pcc = 1 ∧
              page_crossed ((operand1 dev s + 256 * operand2 dev s + s.register_x) % 65536)
                (operand2 dev s)
            then d2 else d1) ∧
      (Fetch_Absolute_X dev speedup pcc s).2.ea_data
        = (Fetch_Absolute_X dev speedup pcc s).1 ∧
      (Fetch_Absolute_X dev speedup pcc s).2.effective_address
        = (operand1 dev s + 256 * operand2 dev s + s.register_x) % 65536 ∧
      (Fetch_Absolute_X dev speedup pcc s).2.register_pc = (s.register_pc + 2) % 65536 ∧
      (Fetch_Absolute_X dev speedup pcc s).2.register_x = s.register_x ∧
      (Fetch_Absolute_X dev speedup pcc s).2.register_y = s.register_y := by
  simp only [Fetch_Absolute_X, operand1, operand2, page_crossed, Fetch_Immediate, read_byte,
    Nat.mod_mod, pc_succ_succ, abs_ea_byte]
  generalize dev.read s.bus _ = q1
  generalize dev.read q1.2 _ = q2
  generalize dev.read q2.2 _ = q3
  generalize dev.read q3.2 _ = q4
  split
  · apply Exists.intro; apply Exists.intro
    refine ⟨?_, ?_, ?_, ?_, ?_, ?_, ?_⟩ <;> try trivial
    simp only [List.append_assoc, List.singleton_append, List.cons_append, List.nil_append]
    try rfl
  · apply Exists.intro; refine Exists.intro 0 ?_
    refine ⟨?_, ?_, ?_, ?_, ?_, ?_, ?_⟩ <;> try trivial
    simp only [List.append_assoc, List.singleton_append, List.cons_append, List.nil_append,
      List.append_nil]
    try rfl

/-- The bus transactions and final state of `Fetch_Absolute_Y`: the two operand reads,
the data read at the effective address, and a second read at the same address exactly
when the condition of the source holds. -/
theorem Fetch_Absolute_Y_run {β : Type} (dev : Device β) (speedup pcc : Nat) (s : Cpu β) :
    ∃ d1 d2 : Nat,
      (Fetch_Absolute_Y dev speedup pcc s).2.trace
        = s.trace ++
          ([BusEvent.read ((s.register_pc + 1) % 65536) (operand1 dev s),
            BusEvent.read ((s.register_pc + 2) % 65536) (operand2 dev s),
            BusEvent.read ((operand1 dev s + 256 * operand2 dev s + s.register_y) % 65536) d1]
          ++ (if speedup = 0 ∧ pcc = 1 ∧
                page_crossed ((operand1 dev s + 256 * operand2 dev s + s.register_y) % 65536)
                  (operand2 dev s)
              then [BusEvent.read
                ((operand1 dev s + 256 * operand2 dev s + s.register_y) % 65536) d2]
              else [])) ∧
      (Fetch_Absolute_Y dev speedup pcc s).1
        = (if speedup = 0 ∧ pcc = 1 ∧
              page_crossed ((operand1 dev s + 256 * operand2 dev s + s.register_y) % 65536)
                (operand2 dev s)
            then d2 else d1) ∧
      (Fetch_Absolute_Y dev speedup pcc s).2.ea_data
        = (Fetch_Absolute_Y dev speedup pcc s).1 ∧
      (Fetch_Absolute_Y dev speedup pcc s).2.effective_address
        = (operand1 dev s + 256 * operand2 dev s + s.register_y) % 65536 ∧
      (Fetch_Absolute_Y dev speedup pcc s).2.register_pc = (s.register_pc + 2) % 65536 ∧
      (Fetch_Absolute_Y dev speedup pcc s).2.register_x = s.register_x ∧
      (Fetch_Absolute_Y dev speedup pcc s).2.register_y = s.register_y := by
  simp only [Fetch_Absolute_Y, operand1, operand2, page_crossed, Fetch_Immediate, read_byte,
    Nat.mod_mod, pc_succ_succ, abs_ea_byte]
  generalize dev.read s.bus _ = q1
  generalize dev.read q1.2 _ = q2
  generalize dev.read q2.2 _ = q3
  generalize dev.read q3.2 _ = q4
  split
  · apply Exists.intro; apply Exists.intro
    refine ⟨?_, ?_, ?_, ?_, ?_, ?_, ?_⟩ <;> try trivial
    simp only [List.append_assoc, List.singleton_append, List.cons_append, List.nil_append]
    try rfl
  · apply Exists.intro; refine Exists.intro 0 ?_
    refine ⟨?_, ?_, ?_, ?_, ?_, ?_, ?_⟩ <;> try trivial
    simp only [List.append_assoc, List.singleton_append, List.cons_append, List.nil_append,
      List.append_nil]
    try rfl

theorem byte_succ_mod (n : Nat) : (n % 256 + 1) % 65536 = n % 256 + 1 :=
  Nat.mod_eq_of_lt (by omega)

theorem ptr_lt (lo v : Nat) : (lo % 256 + 256 * (v % 256)) % 65536 = lo % 256 + 256 * (v % 256) :=
  Nat.mod_eq_of_lt (by omega)

theorem Fetch_Indexed_Indirect_X_run {β : Type} (dev : Device β) (s : Cpu β) :
    ∃ d0 lo hi d : Nat,
      (Fetch_Indexed_Indirect_X dev s).2.trace
        = s.trace ++ [BusEvent.read ((s.register_pc + 1) % 65536) (operand1 dev s),
            BusEvent.read ((operand1 dev s + s.register_x) % 65536) d0,
            BusEvent.read ((operand1 dev s + s.register_x) % 256) lo,
            BusEvent.read ((operand1 dev s + s.register_x + 1) % 256) hi,
            BusEvent.read (lo + 256 * hi) d] ∧
      (Fetch_Indexed_Indirect_X dev s).1 = d ∧
      (Fetch_Indexed_Indirect_X dev s).2.ea_data = d ∧
      (Fetch_Indexed_Indirect_X dev s).2.effective_address = lo + 256 * hi ∧
      (Fetch_Indexed_Indirect_X dev s).2.register_pc = (s.register_pc + 1) % 65536 ∧
      (Fetch_Indexed_Indirect_X dev s).2.register_x = s.register_x ∧
      (Fetch_Indexed_Indirect_X dev s).2.register_y = s.register_y ∧
      lo < 256 ∧ hi < 256 := by
  simp only [Fetch_Indexed_Indirect_X, operand1, Fetch_Immediate, read_byte, Nat.mod_mod,
    land_ff, mod_256_mod, mod_mod_256, succ_mod_256, ptr_ea, ptr_lt]
  generalize dev.read s.bus _ = q1
  generalize dev.read q1.2 _ = q2
  generalize dev.read q2.2 _ = q3
  generalize dev.read q3.2 _ = q4
  generalize dev.read q4.2 _ = q5
  apply Exists.intro; apply Exists.intro; apply Exists.intro; apply Exists.intro
  refine ⟨?_, ?_, ?_, ?_, ?_, ?_, ?_, ?_, ?_⟩
  · first
      | rfl
      | (simp only [List.append_assoc, List.singleton_append, List.cons_append,
          List.nil_append, List.append_nil]; try rfl)
  all_goals first | trivial | exact Nat.mod_lt _ (by decide)

theorem Fetch_Indexed_Indirect_Y_run {β : Type} (dev : Device β) (speedup pcc : Nat)
    (s : Cpu β) :
    ∃ lo hi d1 d2 : Nat,
      (Fetch_Indexed_Indirect_Y dev speedup pcc s).2.trace
        = s.trace ++
          ([BusEvent.read ((s.register_pc + 1) % 65536) (operand1 dev s),
            BusEvent.read (operand1 dev s) lo,
            BusEvent.read ((operand1 dev s + 1) % 256) hi,
            BusEvent.read ((lo + 256 * hi + s.register_y) % 65536) d1]
          ++ (if speedup = 0 ∧ pcc = 1 ∧
                page_crossed ((lo + 256 * hi + s.register_y) % 65536) hi
              then [BusEvent.read ((lo + 256 * hi + s.register_y) % 65536) d2]
              else [])) ∧
      (Fetch_Indexed_Indirect_Y dev speedup pcc s).1
        = (if speedup = 0 ∧ pcc = 1 ∧
              page_crossed ((lo + 256 * hi + s.register_y) % 65536) hi
            then d2 else d1) ∧
      (Fetch_Indexed_Indirect_Y dev speedup pcc s).2.ea_data
        = (Fetch_Indexed_Indirect_Y dev speedup pcc s).1 ∧
      (Fetch_Indexed_Indirect_Y dev speedup pcc s).2.effective_address
        = (lo + 256 * hi + s.register_y) % 65536 ∧
      (Fetch_Indexed_Indirect_Y dev speedup pcc s).2.register_pc
        = (s.register_pc + 1) % 65536 ∧
      (Fetch_Indexed_Indirect_Y dev speedup pcc s).2.register_x = s.register_x ∧
      (Fetch_Indexed_Indirect_Y dev speedup pcc s).2.register_y = s.register_y ∧
      lo < 256 ∧ hi < 256 := by
  simp only [Fetch_Indexed_Indirect_Y, operand1, page_crossed, Fetch_Immediate, read_byte,
    Nat.mod_mod, land_ff, mod_256_mod, abs_ea_byte]
  generalize dev.read s.bus _ = q1
  generalize dev.read q1.2 _ = q2
  generalize dev.read q2.2 _ = q3
  generalize dev.read q3.2 _ = q4
  generalize dev.read q4.2 _ = q5
  refine ⟨q2.1 % 256, q3.1 % 256, ?_⟩
  split
  · apply Exists.intro; apply Exists.intro
    refine ⟨?_, ?_, ?_, ?_, ?_, ?_, ?_, ?_, ?_⟩
    · first
        | rfl
        | (simp only [List.append_assoc, List.singleton_append, List.cons_append,
            List.nil_append, List.append_nil]; try rfl)
    all_goals first | trivial | exact Nat.mod_lt _ (by decide)
  · apply Exists.intro; refine Exists.intro 0 ?_
    refine ⟨?_, ?_, ?_, ?_, ?_, ?_, ?_, ?_, ?_⟩
    · first
        | rfl
        | (simp only [List.append_assoc, List.singleton_append, List.cons_append,
            List.nil_append, List.append_nil]; try rfl)
    all_goals first | trivial | exact Nat.mod_lt _ (by decide)

/-! ## What each store routine does, transaction by transaction -/

theorem Write_ZeroPage_run {β : Type} (dev : Device β) (v : Nat) (s : Cpu β) :
    ((Write_ZeroPage dev v s).trace
        = s.trace ++ [BusEvent.read ((s.register_pc + 1) % 65536) (operand1 dev s),
            BusEvent.write (operand1 dev s) (v % 256)]) ∧
      (Write_ZeroPage dev v s).ea_data = operand1 dev s ∧
      (Write_ZeroPage dev v s).effective_address = operand1 dev s ∧
      (Write_ZeroPage dev v s).register_pc = (s.register_pc + 1) % 65536 ∧
      (Write_ZeroPage dev v s).register_x = s.register_x ∧
      (Write_ZeroPage dev v s).register_y = s.register_y := by
  simp only [Write_ZeroPage, write_byte, operand1, Fetch_Immediate, read_byte, Nat.mod_mod,
    mod_256_mod]
  generalize dev.read s.bus _ = q1
  refine ⟨?_, ?_, ?_, ?_, ?_, ?_⟩
  · first
      | rfl
      | (simp only [List.append_assoc, List.singleton_append, List.cons_append,
          List.nil_append, List.append_nil, Nat.mod_mod]; try rfl)
  all_goals trivial

theorem Write_Absolute_run {β : Type} (dev : Device β) (v : Nat) (s : Cpu β) :
    ((Write_Absolute dev v s).trace
        = s.trace ++ [BusEvent.read ((s.register_pc + 1) % 65536) (operand1 dev s),
            BusEvent.read ((s.register_pc + 2) % 65536) (operand2 dev s),
            BusEvent.write (operand1 dev s + 256 * operand2 dev s) (v % 256)]) ∧
      (Write_Absolute dev v s).ea_data = operand2 dev s ∧
      (Write_Absolute dev v s).effective_address = operand1 dev s + 256 * operand2 dev s ∧
      (Write_Absolute dev v s).register_pc = (s.register_pc + 2) % 65536 ∧
      (Write_Absolute dev v s).register_x = s.register_x ∧
      (Write_Absolute dev v s).register_y = s.register_y := by
  simp only [Write_Absolute, write_byte, operand1, operand2, Fetch_Immediate, read_byte,
    Nat.mod_mod, pc_succ_succ, ptr_ea_shl, ptr_lt]
  generalize dev.read s.bus _ = q1
  generalize dev.read q1.2 _ = q2
  refine ⟨?_, ?_, ?_, ?_, ?_, ?_⟩
  · first
      | rfl
      | (simp only [List.append_assoc, List.singleton_append, List.cons_append,
          List.nil_append, List.append_nil, Nat.mod_mod]; try rfl)
  all_goals trivial

theorem Write_ZeroPage_X_run {β : Type} (dev : Device β) (speedup v : Nat) (s : Cpu β) :
    ∃ d0 : Nat,
      ((Write_ZeroPage_X dev speedup v s).trace
        = s.trace ++ ([BusEvent.read ((s.register_pc + 1) % 65536) (operand1 dev s)] ++
            (if speedup = 0 then [BusEvent.read (operand1 dev s) d0] else []) ++
            [BusEvent.write ((operand1 dev s + s.register_x) % 256) (v % 256)])) ∧
      (Write_ZeroPage_X dev speedup v s).ea_data = operand1 dev s ∧
      (Write_ZeroPage_X dev speedup v s).effective_address = operand1 dev s ∧
      (Write_ZeroPage_X dev speedup v s).register_pc = (s.register_pc + 1) % 65536 ∧
      (Write_ZeroPage_X dev speedup v s).register_x = s.register_x ∧
      (Write_ZeroPage_X dev speedup v s).register_y = s.register_y := by
  by_cases h : speedup = 0
  · simp only [Write_ZeroPage_X, write_byte, operand1, Fetch_Immediate, read_byte,
      Nat.mod_mod, mod_256_mod, land_ff, if_pos h]
    generalize dev.read s.bus _ = q1
    generalize dev.read q1.2 _ = q2
    apply Exists.intro
    refine ⟨?_, ?_, ?_, ?_, ?_, ?_⟩
    · first
        | rfl
        | (simp only [List.append_assoc, List.singleton_append, List.cons_append,
            List.nil_append, List.append_nil, Nat.mod_mod]; try rfl)
    all_goals trivial
  · simp only [Write_ZeroPage_X, write_byte, operand1, Fetch_Immediate, read_byte,
      Nat.mod_mod, mod_256_mod, land_ff, if_neg h]
    generalize dev.read s.bus _ = q1
    refine Exists.intro 0 ?_
    refine ⟨?_, ?_, ?_, ?_, ?_, ?_⟩
    · first
        | rfl
        | (simp only [List.append_assoc, List.singleton_append, List.cons_append,
            List.nil_append, List.append_nil, Nat.mod_mod]; try rfl)
    all_goals trivial

theorem Write_ZeroPage_Y_run {β : Type} (dev : Device β) (speedup v : Nat) (s : Cpu β) :
    ∃ d0 : Nat,
      ((Write_ZeroPage_Y dev speedup v s).trace
        = s.trace ++ ([BusEvent.read ((s.register_pc + 1) % 65536) (operand1 dev s)] ++
            (if speedup = 0 then [BusEvent.read (operand1 dev s) d0] else []) ++
            [BusEvent.write ((operand1 dev s + s.register_y) % 256) (v % 256)])) ∧
      (Write_ZeroPage_Y dev speedup v s).ea_data = operand1 dev s ∧
      (Write_ZeroPage_Y dev speedup v s).effective_address = operand1 dev s ∧
      (Write_ZeroPage_Y dev speedup v s).register_pc = (s.register_pc + 1) % 65536 ∧
      (Write_ZeroPage_Y dev speedup v s).register_x = s.register_x ∧
      (Write_ZeroPage_Y dev speedup v s).register_y = s.register_y := by
  by_cases h : speedup = 0
  · simp only [Write_ZeroPage_Y, write_byte, operand1, Fetch_Immediate, read_byte,
      Nat.mod_mod, mod_256_mod, land_ff, if_pos h]
    generalize dev.read s.bus _ = q1
    generalize dev.read q1.2 _ = q2
    apply Exists.intro
    refine ⟨?_, ?_, ?_, ?_, ?_, ?_⟩
    · first
        | rfl
        | (simp only [List.append_assoc, List.singleton_append, List.cons_append,
            List.nil_append, List.append_nil, Nat.mod_mod]; try rfl)
    all_goals trivial
  · simp only [Write_ZeroPage_Y, write_byte, operand1, Fetch_Immediate, read_byte,
      Nat.mod_mod, mod_256_mod, land_ff, if_neg h]
    generalize dev.read s.bus _ = q1
    refine Exists.intro 0 ?_
    refine ⟨?_, ?_, ?_, ?_, ?_, ?_⟩
    · first
        | rfl
        | (simp only [List.append_assoc, List.singleton_append, List.cons_append,
            List.nil_append, List.append_nil, Nat.mod_mod]; try rfl)
    all_goals trivial

theorem Write_Absolute_X_run {β : Type} (dev : Device β) (speedup v : Nat) (s : Cpu β) :
    ∃ d0 : Nat,
      ((Write_Absolute_X dev speedup v s).trace
        = s.trace ++ ([BusEvent.read ((s.register_pc + 1) % 65536) (operand1 dev s),
            BusEvent.read ((s.register_pc + 2) % 65536) (operand2 dev s)] ++
            (if speedup = 0 then
              [BusEvent.read ((operand1 dev s + 256 * operand2 dev s + s.register_x) % 65536) d0]
             else []) ++
            [BusEvent.write ((operand1 dev s + 256 * operand2 dev s + s.register_x) % 65536)
              (v % 256)])) ∧
      (Write_Absolute_X dev speedup v s).ea_data = operand2 dev s ∧
      (Write_Absolute_X dev speedup v s).effective_address = (operand1 dev s + 256 * operand2 dev s + s.register_x) % 65536 ∧
      (Write_Absolute_X dev speedup v s).register_pc = (s.register_pc + 2) % 65536 ∧
      (Write_Absolute_X dev speedup v s).register_x = s.register_x ∧
      (Write_Absolute_X dev speedup v s).register_y = s.register_y := by
  by_cases h : speedup = 0
  · simp only [Write_Absolute_X, write_byte, operand1, operand2, Fetch_Immediate, read_byte,
      Nat.mod_mod, pc_succ_succ, abs_ea_byte_comm, if_pos h]
    generalize dev.read s.bus _ = q1
    generalize dev.read q1.2 _ = q2
    generalize dev.read q2.2 _ = q3
    apply Exists.intro
    refine ⟨?_, ?_, ?_, ?_, ?_, ?_⟩
    · first
        | rfl
        | (simp only [List.append_assoc, List.singleton_append, List.cons_append,
            List.nil_append, List.append_nil, Nat.mod_mod]; try rfl)
    all_goals trivial
  · simp only [Write_Absolute_X, write_byte, operand1, operand2, Fetch_Immediate, read_byte,
      Nat.mod_mod, pc_succ_succ, abs_ea_byte_comm, if_neg h]
    generalize dev.read s.bus _ = q1
    generalize dev.read q1.2 _ = q2
    refine Exists.intro 0 ?_
    refine ⟨?_, ?_, ?_, ?_, ?_, ?_⟩
    · first
        | rfl
        | (simp only [List.append_assoc, List.singleton_append, List.cons_append,
            List.nil_append, List.append_nil, Nat.mod_mod]; try rfl)
    all_goals trivial

theorem Write_Absolute_Y_run {β : Type} (dev : Device β) (speedup v : Nat) (s : Cpu β) :
    ∃ d0 d1 : Nat,
      ((Write_Absolute_Y dev speedup v s).trace
        = s.trace ++ ([BusEvent.read ((s.register_pc + 1) % 65536) (operand1 dev s),
            BusEvent.read ((s.register_pc + 2) % 65536) (operand2 dev s),
            BusEvent.read ((operand1 dev s + 256 * operand2 dev s + s.register_y) % 65536) d0] ++
            (if speedup = 0 ∧
                page_crossed ((operand1 dev s + 256 * operand2 dev s + s.register_y) % 65536)
                  (operand2 dev s) then
              [BusEvent.read ((operand1 dev s + 256 * operand2 dev s + s.register_y) % 65536) d1]
             else []) ++
            [BusEvent.write ((operand1 dev s + 256 * operand2 dev s + s.register_y) % 65536)
              (v % 256)])) ∧
      (Write_Absolute_Y dev speedup v s).ea_data = operand2 dev s ∧
      (Write_Absolute_Y dev speedup v s).effective_address = (operand1 dev s + 256 * operand2 dev s + s.register_y) % 65536 ∧
      (Write_Absolute_Y dev speedup v s).register_pc = (s.register_pc + 2) % 65536 ∧
      (Write_Absolute_Y dev speedup v s).register_x = s.register_x ∧
      (Write_Absolute_Y dev speedup v s).register_y = s.register_y := by
  by_cases h : speedup = 0
  · subst h
    simp only [Write_Absolute_Y, write_byte, operand1, operand2, page_crossed, Fetch_Immediate,
      read_byte, Nat.mod_mod, pc_succ_succ, abs_ea_byte_comm, true_and, if_true]
    generalize dev.read s.bus _ = q1
    generalize dev.read q1.2 _ = q2
    generalize dev.read q2.2 _ = q3
    generalize dev.read q3.2 _ = q4
    split
    · apply Exists.intro; apply Exists.intro
      refine ⟨?_, ?_, ?_, ?_, ?_, ?_⟩
      · first
          | rfl
          | (simp only [List.append_assoc, List.singleton_append, List.cons_append,
              List.nil_append, List.append_nil, Nat.mod_mod]; try rfl)
      all_goals trivial
    · apply Exists.intro; refine Exists.intro 0 ?_
      refine ⟨?_, ?_, ?_, ?_, ?_, ?_⟩
      · first
          | rfl
          | (simp only [List.append_assoc, List.singleton_append, List.cons_append,
              List.nil_append, List.append_nil, Nat.mod_mod]; try rfl)
      all_goals trivial
  · simp only [Write_Absolute_Y, write_byte, operand1, operand2, page_crossed, Fetch_Immediate,
      read_byte, Nat.mod_mod, pc_succ_succ, abs_ea_byte_comm, h, false_and, if_false]
    generalize dev.read s.bus _ = q1
    generalize dev.read q1.2 _ = q2
    generalize dev.read q2.2 _ = q3
    apply Exists.intro; refine Exists.intro 0 ?_
    refine ⟨?_, ?_, ?_, ?_, ?_, ?_⟩
    · first
        | rfl
        | (simp only [List.append_assoc, List.singleton_append, List.cons_append,
            List.nil_append, List.append_nil, Nat.mod_mod]; try rfl)
    all_goals trivial

theorem Write_Indexed_Indirect_X_run {β : Type} (dev : Device β) (v : Nat) (s : Cpu β) :
    ∃ d0 lo hi : Nat,
      ((Write_Indexed_Indirect_X dev v s).trace
        = s.trace ++ [BusEvent.read ((s.register_pc + 1) % 65536) (operand1 dev s),
            BusEvent.read (operand1 dev s) d0,
            BusEvent.read ((operand1 dev s + s.register_x) % 256) lo,
            BusEvent.read ((operand1 dev s + s.register_x + 1) % 256) hi,
            BusEvent.write (lo + 256 * hi) (v % 256)]) ∧
      (Write_Indexed_Indirect_X dev v s).ea_data = operand1 dev s ∧
      (Write_Indexed_Indirect_X dev v s).effective_address = lo + 256 * hi ∧
      (Write_Indexed_Indirect_X dev v s).register_pc = (s.register_pc + 1) % 65536 ∧
      (Write_Indexed_Indirect_X dev v s).register_x = s.register_x ∧
      (Write_Indexed_Indirect_X dev v s).register_y = s.register_y ∧
      lo < 256 ∧ hi < 256 := by
  simp only [Write_Indexed_Indirect_X, write_byte, operand1, Fetch_Immediate, read_byte,
    Nat.mod_mod, land_ff, mod_256_mod, ptr_ea, ptr_lt]
  generalize dev.read s.bus _ = q1
  generalize dev.read q1.2 _ = q2
  generalize dev.read q2.2 _ = q3
  generalize dev.read q3.2 _ = q4
  apply Exists.intro; apply Exists.intro; apply Exists.intro
  refine ⟨?_, ?_, ?_, ?_, ?_, ?_, ?_, ?_⟩
  · first
      | rfl
      | (simp only [List.append_assoc, List.singleton_append, List.cons_append,
          List.nil_append, List.append_nil, Nat.mod_mod]; try rfl)
  all_goals first | trivial | exact Nat.mod_lt _ (by decide)

theorem Write_Indexed_Indirect_Y_run {β : Type} (dev : Device β) (speedup v : Nat)
    (s : Cpu β) :
    ∃ lo hi d0 : Nat,
      ((Write_Indexed_Indirect_Y dev speedup v s).trace
        = s.trace ++ ([BusEvent.read ((s.register_pc + 1) % 65536) (operand1 dev s),
            BusEvent.read (operand1 dev s) lo,
            BusEvent.read (operand1 dev s + 1) hi] ++
            (if speedup = 0 then [BusEvent.read ((lo + 256 * hi + s.register_y) % 65536) d0] else []) ++
            [BusEvent.write ((lo + 256 * hi + s.register_y) % 65536) (v % 256)])) ∧
      (Write_Indexed_Indirect_Y dev speedup v s).ea_data = operand1 dev s ∧
      (Write_Indexed_Indirect_Y dev speedup v s).effective_address = (lo + 256 * hi + s.register_y) % 65536 ∧
      (Write_Indexed_Indirect_Y dev speedup v s).register_pc = (s.register_pc + 1) % 65536 ∧
      (Write_Indexed_Indirect_Y dev speedup v s).register_x = s.register_x ∧
      (Write_Indexed_Indirect_Y dev speedup v s).register_y = s.register_y ∧
      lo < 256 ∧ hi < 256 := by
  by_cases h : speedup = 0
  · simp only [Write_Indexed_Indirect_Y, write_byte, operand1, Fetch_Immediate, read_byte,
      Nat.mod_mod, mod_256_mod, byte_succ_mod, abs_ea_byte, if_pos h]
    generalize dev.read s.bus _ = q1
    generalize dev.read q1.2 _ = q2
    generalize dev.read q2.2 _ = q3
    generalize dev.read q3.2 _ = q4
    apply Exists.intro; apply Exists.intro; apply Exists.intro
    refine ⟨?_, ?_, ?_, ?_, ?_, ?_, ?_, ?_⟩
    · first
        | rfl
        | (simp only [List.append_assoc, List.singleton_append, List.cons_append,
            List.nil_append, List.append_nil, Nat.mod_mod]; try rfl)
    all_goals first | trivial | exact Nat.mod_lt _ (by decide)
  · simp only [Write_Indexed_Indirect_Y, write_byte, operand1, Fetch_Immediate, read_byte,
      Nat.mod_mod, mod_256_mod, byte_succ_mod, abs_ea_byte, if_neg h]
    generalize dev.read s.bus _ = q1
    generalize dev.read q1.2 _ = q2
    generalize dev.read q2.2 _ = q3
    apply Exists.intro; apply Exists.intro; refine Exists.intro 0 ?_
    refine ⟨?_, ?_, ?_, ?_, ?_, ?_, ?_, ?_⟩
    · first
        | rfl
        | (simp only [List.append_assoc, List.singleton_append, List.cons_append,
            List.nil_append, List.append_nil, Nat.mod_mod]; try rfl)
    all_goals first | trivial | exact Nat.mod_lt _ (by decide)

theorem Double_WriteBack_run {β : Type} (dev : Device β) (speedup v : Nat) (s : Cpu β) :
    ((Double_WriteBack dev speedup v s).trace
        = s.trace ++
            ((if speedup = 0 then
                [BusEvent.write (s.effective_address % 65536) (s.ea_data % 256)]
              else []) ++
            [BusEvent.write (s.effective_address % 65536) (v % 256)])) ∧
      (Double_WriteBack dev speedup v s).ea_data = s.ea_data ∧
      (Double_WriteBack dev speedup v s).effective_address = s.effective_address ∧
      (Double_WriteBack dev speedup v s).register_pc = s.register_pc ∧
      (Double_WriteBack dev speedup v s).register_x = s.register_x ∧
      (Double_WriteBack dev speedup v s).register_y = s.register_y := by
  by_cases h : speedup = 0
  · simp only [Double_WriteBack, write_byte, if_pos h]
    refine ⟨?_, ?_, ?_, ?_, ?_, ?_⟩
    · first
        | rfl
        | (simp only [List.append_assoc, List.singleton_append, List.cons_append,
            List.nil_append, List.append_nil, Nat.mod_mod]; try rfl)
    all_goals trivial
  · simp only [Double_WriteBack, write_byte, if_neg h]
    refine ⟨?_, ?_, ?_, ?_, ?_, ?_⟩
    all_goals trivial

/-! ## Zero-page indexed fetch -/

/-- C1: for every device, state and fidelity mode, with `b` the operand byte fetched from
the instruction stream, `Fetch_ZeroPage_X` (index X) and `Fetch_ZeroPage_Y` (index Y)
leave `effective_address = (b + index) mod 256`, their last bus transaction is a read at
that address and the value returned is the byte that read delivered; with `b = 0xFF` and
index `0x01` the effective address is `0x00`. -/
theorem Fetch_ZeroPage_XY_wraps {β : Type} (dev : Device β) (speedup : Nat) (s : Cpu β) :
    ((Fetch_ZeroPage_X dev speedup s).2.effective_address
        = (operand1 dev s + s.register_x) % 256 ∧
      (Fetch_ZeroPage_X dev speedup s).2.trace.getLast?
        = some (BusEvent.read ((operand1 dev s + s.register_x) % 256)
            (Fetch_ZeroPage_X dev speedup s).1) ∧
      (operand1 dev s = 0xFF → s.register_x = 0x01 →
        (Fetch_ZeroPage_X dev speedup s).2.effective_address = 0x00)) ∧
    ((Fetch_ZeroPage_Y dev speedup s).2.effective_address
        = (operand1 dev s + s.register_y) % 256 ∧
      (Fetch_ZeroPage_Y dev speedup s).2.trace.getLast?
        = some (BusEvent.read ((operand1 dev s + s.register_y) % 256)
            (Fetch_ZeroPage_Y dev speedup s).1) ∧
      (operand1 dev s = 0xFF → s.register_y = 0x01 →
        (Fetch_ZeroPage_Y dev speedup s).2.effective_address = 0x00)) := by
  have hm : ∀ n : Nat, n % 256 % 65536 = n % 256 := fun n =>
    Nat.mod_eq_of_lt (by omega)
  have hx : (Fetch_ZeroPage_X dev speedup s).2.effective_address
      = (operand1 dev s + s.register_x) % 256 := by
    by_cases h : speedup = 0 <;>
      simp [Fetch_ZeroPage_X, operand1, Fetch_Immediate, read_byte, land_ff, h]
  have hy : (Fetch_ZeroPage_Y dev speedup s).2.effective_address
      = (operand1 dev s + s.register_y) % 256 := by
    by_cases h : speedup = 0 <;>
      simp [Fetch_ZeroPage_Y, operand1, Fetch_Immediate, read_byte, land_ff, h]
  refine ⟨⟨hx, ?_, ?_⟩, hy, ?_, ?_⟩
  · by_cases h : speedup = 0 <;>
      simp [Fetch_ZeroPage_X, operand1, Fetch_Immediate, read_byte, land_ff, h, hm]
  · intro hb hi
    rw [hx, hb, hi]
  · by_cases h : speedup = 0 <;>
      simp [Fetch_ZeroPage_Y, operand1, Fetch_Immediate, read_byte, land_ff, h, hm]
  · intro hb hi
    rw [hy, hb, hi]

/-- Witness for C1: operand byte `0xFF` with `X = Y = 0x01` over plain memory; both
routines finish with `effective_address = 0x00`. -/
theorem Fetch_ZeroPage_XY_wraps_witness :
    operand1 ram (demo 0xFF 0 1 1 0) = 0xFF ∧
    (Fetch_ZeroPage_X ram SPEEDUP (demo 0xFF 0 1 1 0)).2.effective_address = 0x00 ∧
    (Fetch_ZeroPage_Y ram SPEEDUP (demo 0xFF 0 1 1 0)).2.effective_address = 0x00 :=
  ⟨by decide,
   (Fetch_ZeroPage_XY_wraps ram SPEEDUP (demo 0xFF 0 1 1 0)).1.2.2 (by decide) (by decide),
   (Fetch_ZeroPage_XY_wraps ram SPEEDUP (demo 0xFF 0 1 1 0)).2.2.2 (by decide) (by decide)⟩

/-! ## Absolute indexed fetch -/

/-- C2: for every device, state, fidelity mode and `page_cross_check`, with `lo` and `hi`
the operand bytes (low byte fetched first), `Fetch_Absolute_X` and `Fetch_Absolute_Y`
leave `effective_address = (lo + 256 * hi + index) mod 65536`.  For base `0x10FF` and
index `0x01` this is `0x1100`, the page-crossed condition of the source holds, and with
`SPEEDUP = 0` and `page_cross_check = 1` the routine issues four reads: the two operand
reads and two reads at `0x1100`. -/
theorem Fetch_Absolute_XY_carry {β : Type} (dev : Device β) (speedup pcc : Nat) (s : Cpu β) :
    ((Fetch_Absolute_X dev speedup pcc s).2.effective_address
        = (operand1 dev s + 256 * operand2 dev s + s.register_x) % 65536 ∧
      (operand1 dev s = 0xFF → operand2 dev s = 0x10 → s.register_x = 0x01 →
        (Fetch_Absolute_X dev speedup pcc s).2.effective_address = 0x1100 ∧
        page_crossed 0x1100 0x10 ∧
        ∃ d1 d2 : Nat, (Fetch_Absolute_X dev SPEEDUP 1 s).2.trace
          = s.trace ++ [BusEvent.read ((s.register_pc + 1) % 65536) 0xFF,
              BusEvent.read ((s.register_pc + 2) % 65536) 0x10,
              BusEvent.read 0x1100 d1, BusEvent.read 0x1100 d2])) ∧
    ((Fetch_Absolute_Y dev speedup pcc s).2.effective_address
        = (operand1 dev s + 256 * operand2 dev s + s.register_y) % 65536 ∧
      (operand1 dev s = 0xFF → operand2 dev s = 0x10 → s.register_y = 0x01 →
        (Fetch_Absolute_Y dev speedup pcc s).2.effective_address = 0x1100 ∧
        page_crossed 0x1100 0x10 ∧
        ∃ d1 d2 : Nat, (Fetch_Absolute_Y dev SPEEDUP 1 s).2.trace
          = s.trace ++ [BusEvent.read ((s.register_pc + 1) % 65536) 0xFF,
              BusEvent.read ((s.register_pc + 2) % 65536) 0x10,
              BusEvent.read 0x1100 d1, BusEvent.read 0x1100 d2])) := by
  have hc : page_crossed 0x1100 0x10 := by decide
  refine ⟨⟨?_, ?_⟩, ?_, ?_⟩
  · obtain ⟨_, _, _, _, _, hea, _⟩ := Fetch_Absolute_X_run dev speedup pcc s
    exact hea
  · intro h1 h2 hx
    obtain ⟨_, _, _, _, _, hea, _⟩ := Fetch_Absolute_X_run dev speedup pcc s
    obtain ⟨d1, d2, ht, _⟩ := Fetch_Absolute_X_run dev SPEEDUP 1 s
    rw [h1, h2, hx] at hea ht
    refine ⟨hea, hc, d1, d2, ?_⟩
    rw [ht, if_pos ⟨rfl, rfl, hc⟩]
    rfl
  · obtain ⟨_, _, _, _, _, hea, _⟩ := Fetch_Absolute_Y_run dev speedup pcc s
    exact hea
  · intro h1 h2 hy
    obtain ⟨_, _, _, _, _, hea, _⟩ := Fetch_Absolute_Y_run dev speedup pcc s
    obtain ⟨d1, d2, ht, _⟩ := Fetch_Absolute_Y_run dev SPEEDUP 1 s
    rw [h1, h2, hy] at hea ht
    refine ⟨hea, hc, d1, d2, ?_⟩
    rw [ht, if_pos ⟨rfl, rfl, hc⟩]
    rfl

/-- Witness for C2: base `0x10FF` with `X = Y = 0x01` over plain memory. -/
theorem Fetch_Absolute_XY_carry_witness :
    (operand1 ram (demo 0xFF 0x10 1 1 0x1100) = 0xFF ∧
      operand2 ram (demo 0xFF 0x10 1 1 0x1100) = 0x10) ∧
    ((Fetch_Absolute_X ram SPEEDUP 1 (demo 0xFF 0x10 1 1 0x1100)).2.effective_address = 0x1100 ∧
      page_crossed 0x1100 0x10 ∧
      ∃ d1 d2 : Nat, (Fetch_Absolute_X ram SPEEDUP 1 (demo 0xFF 0x10 1 1 0x1100)).2.trace
        = [] ++ [BusEvent.read ((0x0800 + 1) % 65536) 0xFF,
            BusEvent.read ((0x0800 + 2) % 65536) 0x10,
            BusEvent.read 0x1100 d1, BusEvent.read 0x1100 d2]) ∧
    ((Fetch_Absolute_Y ram SPEEDUP 1 (demo 0xFF 0x10 1 1 0x1100)).2.effective_address = 0x1100 ∧
      page_crossed 0x1100 0x10 ∧
      ∃ d1 d2 : Nat, (Fetch_Absolute_Y ram SPEEDUP 1 (demo 0xFF 0x10 1 1 0x1100)).2.trace
        = [] ++ [BusEvent.read ((0x0800 + 1) % 65536) 0xFF,
            BusEvent.read ((0x0800 + 2) % 65536) 0x10,
            BusEvent.read 0x1100 d1, BusEvent.read 0x1100 d2]) :=
  ⟨⟨by decide, by decide⟩,
   (Fetch_Absolute_XY_carry ram SPEEDUP 1 (demo 0xFF 0x10 1 1 0x1100)).1.2
      (by decide) (by decide) (by decide),
   (Fetch_Absolute_XY_carry ram SPEEDUP 1 (demo 0xFF 0x10 1 1 0x1100)).2.2
      (by decide) (by decide) (by decide)⟩

/-! ## Double write-back -/

/-- C3: with accurate timing on (`SPEEDUP = 0`), for every device, every well-formed state
and every byte `v`, `Double_WriteBack v` issues exactly two bus transactions, both writes
at the current `effective_address`: first the unmodified operand `ea_data`, then `v`.
It issues no read and leaves `register_pc`, `effective_address`, `ea_data`, `register_x`
and `register_y` unchanged. -/
theorem Double_WriteBack_two_writes {β : Type} (dev : Device β) (v : Nat) (s : Cpu β)
    (hs : s.WF) (hv : v < 256) :
    (Double_WriteBack dev SPEEDUP v s).trace
      = s.trace ++ [BusEvent.write s.effective_address s.ea_data,
          BusEvent.write s.effective_address v] ∧
    (Double_WriteBack dev SPEEDUP v s).register_pc = s.register_pc ∧
    (Double_WriteBack dev SPEEDUP v s).effective_address = s.effective_address ∧
    (Double_WriteBack dev SPEEDUP v s).ea_data = s.ea_data ∧
    (Double_WriteBack dev SPEEDUP v s).register_x = s.register_x ∧
    (Double_WriteBack dev SPEEDUP v s).register_y = s.register_y := by
  obtain ⟨_, hea, _, _, hd⟩ := hs
  obtain ⟨ht, h1, h2, h3, h4, h5⟩ := Double_WriteBack_run dev SPEEDUP v s
  refine ⟨?_, h3, h2, h1, h4, h5⟩
  rw [ht, if_pos (show SPEEDUP = 0 from rfl), Nat.mod_eq_of_lt hea, Nat.mod_eq_of_lt hd, Nat.mod_eq_of_lt hv]
  rfl

/-- Witness for C3: after `Fetch_ZeroPage` has read `0x5A` at `0x40`, writing back `0x5B`
issues `write 0x40 0x5A` and then `write 0x40 0x5B`. -/
theorem Double_WriteBack_two_writes_witness :
    (Double_WriteBack ram SPEEDUP 0x5B (Fetch_ZeroPage ram (demo 0x40 0 0 0 0x40)).2).trace
        = (Fetch_ZeroPage ram (demo 0x40 0 0 0 0x40)).2.trace
          ++ [BusEvent.write (Fetch_ZeroPage ram (demo 0x40 0 0 0 0x40)).2.effective_address
                (Fetch_ZeroPage ram (demo 0x40 0 0 0 0x40)).2.ea_data,
              BusEvent.write (Fetch_ZeroPage ram (demo 0x40 0 0 0 0x40)).2.effective_address
                0x5B] ∧
    (Fetch_ZeroPage ram (demo 0x40 0 0 0 0x40)).2.effective_address = 0x40 ∧
    (Fetch_ZeroPage ram (demo 0x40 0 0 0 0x40)).2.ea_data = 0x5A :=
  ⟨(Double_WriteBack_two_writes ram 0x5B (Fetch_ZeroPage ram (demo 0x40 0 0 0 0x40)).2
      (by decide) (by decide)).1, by decide, by decide⟩

/-! ## Indexed indirect fetch -/

/-- C4: for every device and state, with `b` the operand byte, `Fetch_Indexed_Indirect_X`
reads the pointer low byte `lo` at `(b + X) mod 256` and the pointer high byte `hi` at
`(b + X + 1) mod 256`, and leaves `effective_address = lo + 256 * hi`; when
`(b + X) mod 256 = 0xFF` the high byte is read at `0x00`. -/
theorem Fetch_Indexed_Indirect_X_pointer {β : Type} (dev : Device β) (s : Cpu β) :
    ∃ d0 lo hi d : Nat,
      (Fetch_Indexed_Indirect_X dev s).2.trace
        = s.trace ++ [BusEvent.read ((s.register_pc + 1) % 65536) (operand1 dev s),
            BusEvent.read ((operand1 dev s + s.register_x) % 65536) d0,
            BusEvent.read ((operand1 dev s + s.register_x) % 256) lo,
            BusEvent.read ((operand1 dev s + s.register_x + 1) % 256) hi,
            BusEvent.read (lo + 256 * hi) d] ∧
      (Fetch_Indexed_Indirect_X dev s).2.effective_address = lo + 256 * hi ∧
      ((operand1 dev s + s.register_x) % 256 = 0xFF →
        (Fetch_Indexed_Indirect_X dev s).2.trace
          = s.trace ++ [BusEvent.read ((s.register_pc + 1) % 65536) (operand1 dev s),
              BusEvent.read ((operand1 dev s + s.register_x) % 65536) d0,
              BusEvent.read 0xFF lo,
              BusEvent.read 0x00 hi,
              BusEvent.read (lo + 256 * hi) d]) := by
  obtain ⟨d0, lo, hi, d, ht, _, _, hea, _⟩ := Fetch_Indexed_Indirect_X_run dev s
  refine ⟨d0, lo, hi, d, ht, hea, ?_⟩
  intro h
  have h0 : (operand1 dev s + s.register_x + 1) % 256 = 0 := by omega
  rw [ht, h, h0]

/-- Witness for C4: operand byte `0xF0` and `X = 0x0F`, so the pointer sits at `0xFF` and
its high byte is read at `0x00`. -/
theorem Fetch_Indexed_Indirect_X_pointer_witness :
    (operand1 ram (demo 0xF0 0 0x0F 0 0x00FF) + (demo 0xF0 0 0x0F 0 0x00FF).register_x) % 256
        = 0xFF ∧
    ∃ d0 lo hi d : Nat,
      (Fetch_Indexed_Indirect_X ram (demo 0xF0 0 0x0F 0 0x00FF)).2.trace
        = [] ++ [BusEvent.read 0x0801 0xF0, BusEvent.read 0x00FF d0, BusEvent.read 0xFF lo,
            BusEvent.read 0x00 hi, BusEvent.read (lo + 256 * hi) d] :=
  ⟨by decide, by
    obtain ⟨d0, lo, hi, d, _, _, h⟩ :=
      Fetch_Indexed_Indirect_X_pointer ram (demo 0xF0 0 0x0F 0 0x00FF)
    exact ⟨d0, lo, hi, d, h (by decide)⟩⟩

/-! ## The extra read of the absolute indexed fetches -/

/-- C5 (counterexample): with accurate timing on, `Fetch_Absolute_X` called with
`page_cross_check = 1` on base `0x1000`, `X = 0` (no page crossing) issues three reads
only, and `Fetch_Absolute_Y` called with `page_cross_check = 0` on base `0x10FF`,
`Y = 1` (a page crossing) issues three reads only. -/
theorem extra_read_needs_both_counterexample :
    (Fetch_Absolute_X ram SPEEDUP 1 (demo 0x00 0x10 0 0 0x1000)).2.trace
      = [BusEvent.read 0x0801 0x00, BusEvent.read 0x0802 0x10, BusEvent.read 0x1000 0x5A] ∧
    (page_crossed 0x1100 0x10 ∧
      (Fetch_Absolute_Y ram SPEEDUP 0 (demo 0xFF 0x10 1 1 0x1100)).2.trace
        = [BusEvent.read 0x0801 0xFF, BusEvent.read 0x0802 0x10, BusEvent.read 0x1100 0x5A]) := by
  decide

/-- C5 (amended): `Fetch_Absolute_X` and `Fetch_Absolute_Y` perform the extra (fourth)
bus read exactly when accurate timing is on (`SPEEDUP = 0`), the caller passes
`page_cross_check = 1` and the indexed address crosses a page boundary, all three at
once; in every other case they perform exactly three bus reads. -/
theorem extra_read_iff_all_three {β : Type} (dev : Device β) (speedup pcc : Nat) (s : Cpu β) :
    ((speedup = 0 ∧ pcc = 1 ∧
        page_crossed ((operand1 dev s + 256 * operand2 dev s + s.register_x) % 65536)
          (operand2 dev s) →
      ∃ d1 d2 : Nat, (Fetch_Absolute_X dev speedup pcc s).2.trace
        = s.trace ++ [BusEvent.read ((s.register_pc + 1) % 65536) (operand1 dev s),
            BusEvent.read ((s.register_pc + 2) % 65536) (operand2 dev s),
            BusEvent.read ((operand1 dev s + 256 * operand2 dev s + s.register_x) % 65536) d1,
            BusEvent.read ((operand1 dev s + 256 * operand2 dev s + s.register_x) % 65536) d2]) ∧
     (¬ (speedup = 0 ∧ pcc = 1 ∧
        page_crossed ((operand1 dev s + 256 * operand2 dev s + s.register_x) % 65536)
          (operand2 dev s)) →
      ∃ d1 : Nat, (Fetch_Absolute_X dev speedup pcc s).2.trace
        = s.trace ++ [BusEvent.read ((s.register_pc + 1) % 65536) (operand1 dev s),
            BusEvent.read ((s.register_pc + 2) % 65536) (operand2 dev s),
            BusEvent.read ((operand1 dev s + 256 * operand2 dev s + s.register_x) % 65536)
              d1])) ∧
    ((speedup = 0 ∧ pcc = 1 ∧
        page_crossed ((operand1 dev s + 256 * operand2 dev s + s.register_y) % 65536)
          (operand2 dev s) →
      ∃ d1 d2 : Nat, (Fetch_Absolute_Y dev speedup pcc s).2.trace
        = s.trace ++ [BusEvent.read ((s.register_pc + 1) % 65536) (operand1 dev s),
            BusEvent.read ((s.register_pc + 2) % 65536) (operand2 dev s),
            BusEvent.read ((operand1 dev s + 256 * operand2 dev s + s.register_y) % 65536) d1,
            BusEvent.read ((operand1 dev s + 256 * operand2 dev s + s.register_y) % 65536) d2]) ∧
     (¬ (speedup = 0 ∧ pcc = 1 ∧
        page_crossed ((operand1 dev s + 256 * operand2 dev s + s.register_y) % 65536)
          (operand2 dev s)) →
      ∃ d1 : Nat, (Fetch_Absolute_Y dev speedup pcc s).2.trace
        = s.trace ++ [BusEvent.read ((s.register_pc + 1) % 65536) (operand1 dev s),
            BusEvent.read ((s.register_pc + 2) % 65536) (operand2 dev s),
            BusEvent.read ((operand1 dev s + 256 * operand2 dev s + s.register_y) % 65536)
              d1])) := by
  obtain ⟨x1, x2, hx, _⟩ := Fetch_Absolute_X_run dev speedup pcc s
  obtain ⟨y1, y2, hy, _⟩ := Fetch_Absolute_Y_run dev speedup pcc s
  refine ⟨⟨fun h => ⟨x1, x2, ?_⟩, fun h => ⟨x1, ?_⟩⟩, ⟨fun h => ⟨y1, y2, ?_⟩, fun h => ⟨y1, ?_⟩⟩⟩
  · rw [hx, if_pos h]; rfl
  · rw [hx, if_neg h]; rfl
  · rw [hy, if_pos h]; rfl
  · rw [hy, if_neg h]; rfl

/-- Witness for C5 (amended): base `0x10FF`, index `1`, `page_cross_check = 1` gives four
reads; base `0x1000`, index `0`, `page_cross_check = 1` gives three. -/
theorem extra_read_iff_all_three_witness :
    (∃ d1 d2 : Nat, (Fetch_Absolute_X ram SPEEDUP 1 (demo 0xFF 0x10 1 1 0x1100)).2.trace
        = [] ++ [BusEvent.read ((0x0800 + 1) % 65536) 0xFF,
            BusEvent.read ((0x0800 + 2) % 65536) 0x10,
            BusEvent.read ((0xFF + 256 * 0x10 + 1) % 65536) d1,
            BusEvent.read ((0xFF + 256 * 0x10 + 1) % 65536) d2]) ∧
    (∃ d1 : Nat, (Fetch_Absolute_X ram SPEEDUP 1 (demo 0x00 0x10 0 0 0x1000)).2.trace
        = [] ++ [BusEvent.read ((0x0800 + 1) % 65536) 0x00,
            BusEvent.read ((0x0800 + 2) % 65536) 0x10,
            BusEvent.read ((0x00 + 256 * 0x10 + 0) % 65536) d1]) ∧
    (∃ d1 d2 : Nat, (Fetch_Absolute_Y ram SPEEDUP 1 (demo 0xFF 0x10 1 1 0x1100)).2.trace
        = [] ++ [BusEvent.read ((0x0800 + 1) % 65536) 0xFF,
            BusEvent.read ((0x0800 + 2) % 65536) 0x10,
            BusEvent.read ((0xFF + 256 * 0x10 + 1) % 65536) d1,
            BusEvent.read ((0xFF + 256 * 0x10 + 1) % 65536) d2]) ∧
    (∃ d1 : Nat, (Fetch_Absolute_Y ram SPEEDUP 0 (demo 0xFF 0x10 1 1 0x1100)).2.trace
        = [] ++ [BusEvent.read ((0x0800 + 1) % 65536) 0xFF,
            BusEvent.read ((0x0800 + 2) % 65536) 0x10,
            BusEvent.read ((0xFF + 256 * 0x10 + 1) % 65536) d1]) :=
  ⟨(extra_read_iff_all_three ram SPEEDUP 1 (demo 0xFF 0x10 1 1 0x1100)).1.1 (by decide),
   (extra_read_iff_all_three ram SPEEDUP 1 (demo 0x00 0x10 0 0 0x1000)).1.2 (by decide),
   (extra_read_iff_all_three ram SPEEDUP 1 (demo 0xFF 0x10 1 1 0x1100)).2.1 (by decide),
   (extra_read_iff_all_three ram SPEEDUP 0 (demo 0xFF 0x10 1 1 0x1100)).2.2 (by decide)⟩

/-- C6 (counterexample): on base `0x10FF` with index `1` and `page_cross_check = 1` the
uncorrected address is `0x1000` and the corrected one `0x1100`; both routines issue their
two data reads at `0x1100`, none at `0x1000`. -/
theorem extra_read_uncorrected_counterexample :
    (Fetch_Absolute_X ram SPEEDUP 1 (demo 0xFF 0x10 1 1 0x1100)).2.trace
      = [BusEvent.read 0x0801 0xFF, BusEvent.read 0x0802 0x10,
          BusEvent.read 0x1100 0x5A, BusEvent.read 0x1100 0x5A] ∧
    (Fetch_Absolute_Y ram SPEEDUP 1 (demo 0xFF 0x10 1 1 0x1100)).2.trace
      = [BusEvent.read 0x0801 0xFF, BusEvent.read 0x0802 0x10,
          BusEvent.read 0x1100 0x5A, BusEvent.read 0x1100 0x5A] := by
  decide

/-- C6 (amended): whenever `Fetch_Absolute_X` or `Fetch_Absolute_Y` performs its extra
read (it issues four transactions), the extra read is the last transaction, it follows
the data read, and both are reads at the same address, the corrected
`effective_address`; the value returned is the one the extra read delivered. -/
theorem extra_read_repeats_effective_address {β : Type} (dev : Device β)
    (speedup pcc : Nat) (s : Cpu β) :
    ((Fetch_Absolute_X dev speedup pcc s).2.trace.length = s.trace.length + 4 →
      ∃ d1 d2 : Nat, (Fetch_Absolute_X dev speedup pcc s).2.trace
        = s.trace ++ [BusEvent.read ((s.register_pc + 1) % 65536) (operand1 dev s),
            BusEvent.read ((s.register_pc + 2) % 65536) (operand2 dev s),
            BusEvent.read (Fetch_Absolute_X dev speedup pcc s).2.effective_address d1,
            BusEvent.read (Fetch_Absolute_X dev speedup pcc s).2.effective_address d2] ∧
        (Fetch_Absolute_X dev speedup pcc s).1 = d2) ∧
    ((Fetch_Absolute_Y dev speedup pcc s).2.trace.length = s.trace.length + 4 →
      ∃ d1 d2 : Nat, (Fetch_Absolute_Y dev speedup pcc s).2.trace
        = s.trace ++ [BusEvent.read ((s.register_pc + 1) % 65536) (operand1 dev s),
            BusEvent.read ((s.register_pc + 2) % 65536) (operand2 dev s),
            BusEvent.read (Fetch_Absolute_Y dev speedup pcc s).2.effective_address d1,
            BusEvent.read (Fetch_Absolute_Y dev speedup pcc s).2.effective_address d2] ∧
        (Fetch_Absolute_Y dev speedup pcc s).1 = d2) := by
  constructor
  · intro hlen
    obtain ⟨d1, d2, ht, hr, _, hea, _⟩ := Fetch_Absolute_X_run dev speedup pcc s
    by_cases h : speedup = 0 ∧ pcc = 1 ∧
        page_crossed ((operand1 dev s + 256 * operand2 dev s + s.register_x) % 65536)
          (operand2 dev s)
    · rw [if_pos h] at ht hr
      exact ⟨d1, d2, by rw [ht, hea]; rfl, hr⟩
    · rw [if_neg h] at ht
      rw [ht] at hlen
      simp at hlen
  · intro hlen
    obtain ⟨d1, d2, ht, hr, _, hea, _⟩ := Fetch_Absolute_Y_run dev speedup pcc s
    by_cases h : speedup = 0 ∧ pcc = 1 ∧
        page_crossed ((operand1 dev s + 256 * operand2 dev s + s.register_y) % 65536)
          (operand2 dev s)
    · rw [if_pos h] at ht hr
      exact ⟨d1, d2, by rw [ht, hea]; rfl, hr⟩
    · rw [if_neg h] at ht
      rw [ht] at hlen
      simp at hlen

/-- Witness for C6 (amended): base `0x10FF`, index `1`, `page_cross_check = 1`; both
routines issue four reads. -/
theorem extra_read_repeats_effective_address_witness :
    (∃ d1 d2 : Nat, (Fetch_Absolute_X ram SPEEDUP 1 (demo 0xFF 0x10 1 1 0x1100)).2.trace
        = [] ++ [BusEvent.read ((0x0800 + 1) % 65536) 0xFF,
            BusEvent.read ((0x0800 + 2) % 65536) 0x10,
            BusEvent.read 0x1100 d1, BusEvent.read 0x1100 d2] ∧
        (Fetch_Absolute_X ram SPEEDUP 1 (demo 0xFF 0x10 1 1 0x1100)).1 = d2) ∧
    (∃ d1 d2 : Nat, (Fetch_Absolute_Y ram SPEEDUP 1 (demo 0xFF 0x10 1 1 0x1100)).2.trace
        = [] ++ [BusEvent.read ((0x0800 + 1) % 65536) 0xFF,
            BusEvent.read ((0x0800 + 2) % 65536) 0x10,
            BusEvent.read 0x1100 d1, BusEvent.read 0x1100 d2] ∧
        (Fetch_Absolute_Y ram SPEEDUP 1 (demo 0xFF 0x10 1 1 0x1100)).1 = d2) :=
  ⟨(extra_read_repeats_effective_address ram SPEEDUP 1 (demo 0xFF 0x10 1 1 0x1100)).1
      (by decide),
   (extra_read_repeats_effective_address ram SPEEDUP 1 (demo 0xFF 0x10 1 1 0x1100)).2
      (by decide)⟩

/-! ## The last transaction of a fetch, and the program counter -/

theorem ends_with_data_read_of {β : Type} (s : Cpu β) (r : Nat × Cpu β)
    (pre : List BusEvent) (ea d : Nat)
    (ht : r.2.trace = s.trace ++ (pre ++ [BusEvent.read ea d]))
    (hr : r.1 = d) (hd : r.2.ea_data = r.1) (hea : r.2.effective_address = ea) :
    ends_with_data_read s r := by
  refine ⟨⟨pre, ?_⟩, hd.symm⟩
  rw [ht, hea, hr]

/-- C7: for every device, state, fidelity mode and `page_cross_check`, each fetch routine
that has an effective address ends with a read at the final `effective_address`; the
value returned is the byte that read delivered and equals the final `ea_data`. -/
theorem fetch_ends_with_data_read {β : Type} (dev : Device β) (speedup pcc : Nat) (s : Cpu β) :
    ends_with_data_read s (Fetch_ZeroPage dev s) ∧
    ends_with_data_read s (Fetch_ZeroPage_X dev speedup s) ∧
    ends_with_data_read s (Fetch_ZeroPage_Y dev speedup s) ∧
    ends_with_data_read s (Fetch_Absolute dev s) ∧
    ends_with_data_read s (Fetch_Absolute_X dev speedup pcc s) ∧
    ends_with_data_read s (Fetch_Absolute_Y dev speedup pcc s) ∧
    ends_with_data_read s (Fetch_Indexed_Indirect_X dev s) ∧
    ends_with_data_read s (Fetch_Indexed_Indirect_Y dev speedup pcc s) := by
  refine ⟨?_, ?_, ?_, ?_, ?_, ?_, ?_, ?_⟩
  · obtain ⟨d, ht, hr, hd, hea, _⟩ := Fetch_ZeroPage_run dev s
    exact ends_with_data_read_of s _ [_] _ d ht hr (hd.trans hr.symm) hea
  · obtain ⟨d0, d, ht, hr, hd, hea, _⟩ := Fetch_ZeroPage_X_run dev speedup s
    exact ends_with_data_read_of s _ _ _ d ht hr (hd.trans hr.symm) hea
  · obtain ⟨d0, d, ht, hr, hd, hea, _⟩ := Fetch_ZeroPage_Y_run dev speedup s
    exact ends_with_data_read_of s _ _ _ d ht hr (hd.trans hr.symm) hea
  · obtain ⟨d, ht, hr, hd, hea, _⟩ := Fetch_Absolute_run dev s
    exact ends_with_data_read_of s _ [_, _] _ d ht hr (hd.trans hr.symm) hea
  · obtain ⟨d1, d2, ht, hr, hd, hea, _⟩ := Fetch_Absolute_X_run dev speedup pcc s
    by_cases h : speedup = 0 ∧ pcc = 1 ∧
        page_crossed ((operand1 dev s + 256 * operand2 dev s + s.register_x) % 65536)
          (operand2 dev s)
    · rw [if_pos h] at ht hr
      exact ends_with_data_read_of s _ [_, _, _] _ d2 ht hr hd hea
    · rw [if_neg h] at ht hr
      exact ends_with_data_read_of s _ [_, _] _ d1 ht hr hd hea
  · obtain ⟨d1, d2, ht, hr, hd, hea, _⟩ := Fetch_Absolute_Y_run dev speedup pcc s
    by_cases h : speedup = 0 ∧ pcc = 1 ∧
        page_crossed ((operand1 dev s + 256 * operand2 dev s + s.register_y) % 65536)
          (operand2 dev s)
    · rw [if_pos h] at ht hr
      exact ends_with_data_read_of s _ [_, _, _] _ d2 ht hr hd hea
    · rw [if_neg h] at ht hr
      exact ends_with_data_read_of s _ [_, _] _ d1 ht hr hd hea
  · obtain ⟨d0, lo, hi, d, ht, hr, hd, hea, _⟩ := Fetch_Indexed_Indirect_X_run dev s
    exact ends_with_data_read_of s _ [_, _, _, _] _ d ht hr (hd.trans hr.symm) hea
  · obtain ⟨lo, hi, d1, d2, ht, hr, hd, hea, _⟩ :=
      Fetch_Indexed_Indirect_Y_run dev speedup pcc s
    by_cases h : speedup = 0 ∧ pcc = 1 ∧
        page_crossed ((lo + 256 * hi + s.register_y) % 65536) hi
    · rw [if_pos h] at ht hr
      exact ends_with_data_read_of s _ [_, _, _, _] _ d2 ht hr hd hea
    · rw [if_neg h] at ht hr
      exact ends_with_data_read_of s _ [_, _, _] _ d1 ht hr hd hea

theorem consumes_one {β : Type} (dev : Device β) (s t : Cpu β) (rest : List BusEvent)
    (hpc : t.register_pc = (s.register_pc + 1) % 65536)
    (ht : t.trace
      = s.trace ++ (BusEvent.read ((s.register_pc + 1) % 65536) (operand1 dev s) :: rest)) :
    consumes_operands dev 1 s t :=
  ⟨hpc, rest, ht⟩

theorem consumes_two {β : Type} (dev : Device β) (s t : Cpu β) (rest : List BusEvent)
    (hpc : t.register_pc = (s.register_pc + 2) % 65536)
    (ht : t.trace
      = s.trace ++ (BusEvent.read ((s.register_pc + 1) % 65536) (operand1 dev s)
          :: BusEvent.read ((s.register_pc + 2) % 65536) (operand2 dev s) :: rest)) :
    consumes_operands dev 2 s t := by
  refine ⟨hpc, rest, ?_⟩
  rw [ht]
  simp only [operand_reads, Fetch_Immediate_pc, pc_succ_succ, operand1, operand2,
    List.cons_append, List.nil_append]

/-- C8: every addressing-mode routine advances `register_pc` (mod 65536) by exactly the
number of operand bytes it consumes and reads each operand byte at the address
`register_pc` holds right after its increment: one byte for the immediate, zero-page and
indirect forms, two bytes (low at old PC+1, high at old PC+2) for the absolute forms, and
none for `Double_WriteBack`.  This holds in both fidelity modes and whether or not a
dummy or page-crossing read is issued. -/
theorem routines_advance_pc_by_operand_bytes {β : Type} (dev : Device β)
    (speedup pcc v : Nat) (s : Cpu β) :
    (consumes_operands dev 1 s (Fetch_Immediate dev s).2 ∧
      consumes_operands dev 1 s (Fetch_ZeroPage dev s).2 ∧
      consumes_operands dev 1 s (Fetch_ZeroPage_X dev speedup s).2 ∧
      consumes_operands dev 1 s (Fetch_ZeroPage_Y dev speedup s).2 ∧
      consumes_operands dev 1 s (Fetch_Indexed_Indirect_X dev s).2 ∧
      consumes_operands dev 1 s (Fetch_Indexed_Indirect_Y dev speedup pcc s).2 ∧
      consumes_operands dev 1 s (Write_ZeroPage dev v s) ∧
      consumes_operands dev 1 s (Write_ZeroPage_X dev speedup v s) ∧
      consumes_operands dev 1 s (Write_ZeroPage_Y dev speedup v s) ∧
      consumes_operands dev 1 s (Write_Indexed_Indirect_X dev v s) ∧
      consumes_operands dev 1 s (Write_Indexed_Indirect_Y dev speedup v s)) ∧
    (consumes_operands dev 2 s (Calculate_Absolute dev s).2 ∧
      consumes_operands dev 2 s (Fetch_Absolute dev s).2 ∧
      consumes_operands dev 2 s (Fetch_Absolute_X dev speedup pcc s).2 ∧
      consumes_operands dev 2 s (Fetch_Absolute_Y dev speedup pcc s).2 ∧
      consumes_operands dev 2 s (Write_Absolute dev v s) ∧
      consumes_operands dev 2 s (Write_Absolute_X dev speedup v s) ∧
      consumes_operands dev 2 s (Write_Absolute_Y dev speedup v s)) ∧
    (Double_WriteBack dev speedup v s).register_pc = s.register_pc := by
  refine ⟨⟨?_, ?_, ?_, ?_, ?_, ?_, ?_, ?_, ?_, ?_, ?_⟩, ⟨?_, ?_, ?_, ?_, ?_, ?_, ?_⟩, ?_⟩
  · obtain ⟨ht, _, _, _, hpc, _⟩ := Fetch_Immediate_run dev s
    exact consumes_one dev s _ _ hpc ht
  · obtain ⟨d, ht, _, _, _, hpc, _⟩ := Fetch_ZeroPage_run dev s
    exact consumes_one dev s _ _ hpc ht
  · obtain ⟨d0, d, ht, _, _, _, hpc, _⟩ := Fetch_ZeroPage_X_run dev speedup s
    simp only [List.append_assoc, List.singleton_append] at ht
    exact consumes_one dev s _ _ hpc ht
  · obtain ⟨d0, d, ht, _, _, _, hpc, _⟩ := Fetch_ZeroPage_Y_run dev speedup s
    simp only [List.append_assoc, List.singleton_append] at ht
    exact consumes_one dev s _ _ hpc ht
  · obtain ⟨d0, lo, hi, d, ht, _, _, _, hpc, _⟩ := Fetch_Indexed_Indirect_X_run dev s
    exact consumes_one dev s _ _ hpc ht
  · obtain ⟨lo, hi, d1, d2, ht, _, _, _, hpc, _⟩ :=
      Fetch_Indexed_Indirect_Y_run dev speedup pcc s
    simp only [List.cons_append] at ht
    exact consumes_one dev s _ _ hpc ht
  · obtain ⟨ht, _, _, hpc, _⟩ := Write_ZeroPage_run dev v s
    exact consumes_one dev s _ _ hpc ht
  · obtain ⟨d0, ht, _, _, hpc, _⟩ := Write_ZeroPage_X_run dev speedup v s
    simp only [List.append_assoc, List.singleton_append] at ht
    exact consumes_one dev s _ _ hpc ht
  · obtain ⟨d0, ht, _, _, hpc, _⟩ := Write_ZeroPage_Y_run dev speedup v s
    simp only [List.append_assoc, List.singleton_append] at ht
    exact consumes_one dev s _ _ hpc ht
  · obtain ⟨d0, lo, hi, ht, _, _, hpc, _⟩ := Write_Indexed_Indirect_X_run dev v s
    exact consumes_one dev s _ _ hpc ht
  · obtain ⟨lo, hi, d0, ht, _, _, hpc, _⟩ := Write_Indexed_Indirect_Y_run dev speedup v s
    simp only [List.append_assoc, List.cons_append] at ht
    exact consumes_one dev s _ _ hpc ht
  · obtain ⟨ht, _, _, _, hpc, _⟩ := Calculate_Absolute_run dev s
    exact consumes_two dev s _ _ hpc ht
  · obtain ⟨d, ht, _, _, _, hpc, _⟩ := Fetch_Absolute_run dev s
    exact consumes_two dev s _ _ hpc ht
  · obtain ⟨d1, d2, ht, _, _, _, hpc, _⟩ := Fetch_Absolute_X_run dev speedup pcc s
    simp only [List.cons_append] at ht
    exact consumes_two dev s _ _ hpc ht
  · obtain ⟨d1, d2, ht, _, _, _, hpc, _⟩ := Fetch_Absolute_Y_run dev speedup pcc s
    simp only [List.cons_append] at ht
    exact consumes_two dev s _ _ hpc ht
  · obtain ⟨ht, _, _, hpc, _⟩ := Write_Absolute_run dev v s
    exact consumes_two dev s _ _ hpc ht
  · obtain ⟨d0, ht, _, _, hpc, _⟩ := Write_Absolute_X_run dev speedup v s
    simp only [List.append_assoc, List.cons_append] at ht
    exact consumes_two dev s _ _ hpc ht
  · obtain ⟨d0, d1, ht, _, _, hpc, _⟩ := Write_Absolute_Y_run dev speedup v s
    simp only [List.append_assoc, List.cons_append] at ht
    exact consumes_two dev s _ _ hpc ht
  · exact (Double_WriteBack_run dev speedup v s).2.2.2.1

/-! ## Store, then fetch, over plain memory -/

theorem Fetch_ZeroPage_reads_memory (s : Cpu (Nat → Nat)) :
    reads_memory s (Fetch_ZeroPage ram s) := by
  simp only [reads_memory, Fetch_ZeroPage, Fetch_Immediate, read_byte, ram, Nat.mod_mod,
    mod_256_mod, and_self]

theorem Fetch_ZeroPage_X_reads_memory (speedup : Nat) (s : Cpu (Nat → Nat)) :
    reads_memory s (Fetch_ZeroPage_X ram speedup s) := by
  by_cases h : speedup = 0 <;>
    simp only [reads_memory, Fetch_ZeroPage_X, Fetch_Immediate, read_byte, ram, Nat.mod_mod,
      mod_256_mod, land_ff, h, if_true, if_false, and_self]

theorem Fetch_ZeroPage_Y_reads_memory (speedup : Nat) (s : Cpu (Nat → Nat)) :
    reads_memory s (Fetch_ZeroPage_Y ram speedup s) := by
  by_cases h : speedup = 0 <;>
    simp only [reads_memory, Fetch_ZeroPage_Y, Fetch_Immediate, read_byte, ram, Nat.mod_mod,
      mod_256_mod, land_ff, h, if_true, if_false, and_self]

theorem Fetch_Absolute_reads_memory (s : Cpu (Nat → Nat)) :
    reads_memory s (Fetch_Absolute ram s) := by
  simp only [reads_memory, Fetch_Absolute, Fetch_Immediate, read_byte, ram, Nat.mod_mod,
    and_self]

theorem Fetch_Absolute_X_reads_memory (speedup pcc : Nat) (s : Cpu (Nat → Nat)) :
    reads_memory s (Fetch_Absolute_X ram speedup pcc s) := by
  simp only [reads_memory, Fetch_Absolute_X, Fetch_Immediate, read_byte, ram, Nat.mod_mod]
  split <;> simp only [and_self]

theorem Fetch_Absolute_Y_reads_memory (speedup pcc : Nat) (s : Cpu (Nat → Nat)) :
    reads_memory s (Fetch_Absolute_Y ram speedup pcc s) := by
  simp only [reads_memory, Fetch_Absolute_Y, Fetch_Immediate, read_byte, ram, Nat.mod_mod]
  split <;> simp only [and_self]

theorem Fetch_Indexed_Indirect_X_reads_memory (s : Cpu (Nat → Nat)) :
    reads_memory s (Fetch_Indexed_Indirect_X ram s) := by
  simp only [reads_memory, Fetch_Indexed_Indirect_X, Fetch_Immediate, read_byte, ram,
    Nat.mod_mod, and_self]

theorem Fetch_Indexed_Indirect_Y_reads_memory (speedup pcc : Nat) (s : Cpu (Nat → Nat)) :
    reads_memory s (Fetch_Indexed_Indirect_Y ram speedup pcc s) := by
  simp only [reads_memory, Fetch_Indexed_Indirect_Y, Fetch_Immediate, read_byte, ram,
    Nat.mod_mod]
  split <;> simp only [and_self]

theorem fetch_routines_read_memory (speedup pcc : Nat)
    (f : Cpu (Nat → Nat) → Nat × Cpu (Nat → Nat)) (hf : f ∈ fetch_routines speedup pcc)
    (s : Cpu (Nat → Nat)) : reads_memory s (f s) := by
  simp only [fetch_routines, List.mem_cons, List.mem_singleton, List.not_mem_nil,
    or_false] at hf
  rcases hf with rfl | rfl | rfl | rfl | rfl | rfl | rfl | rfl
  · exact Fetch_ZeroPage_reads_memory s
  · exact Fetch_ZeroPage_X_reads_memory speedup s
  · exact Fetch_ZeroPage_Y_reads_memory speedup s
  · exact Fetch_Absolute_reads_memory s
  · exact Fetch_Absolute_X_reads_memory speedup pcc s
  · exact Fetch_Absolute_Y_reads_memory speedup pcc s
  · exact Fetch_Indexed_Indirect_X_reads_memory s
  · exact Fetch_Indexed_Indirect_Y_reads_memory speedup pcc s

theorem write_byte_stores_byte (a v : Nat) (s : Cpu (Nat → Nat)) :
    stores_byte v (write_byte ram a v s) :=
  ⟨a % 65536, by simp only [write_byte, List.getLast?_concat],
    by simp only [write_byte, ram, if_true]⟩

theorem store_routines_store_byte (speedup : Nat)
    (w : Nat → Cpu (Nat → Nat) → Cpu (Nat → Nat)) (hw : w ∈ store_routines speedup)
    (v : Nat) (s : Cpu (Nat → Nat)) : stores_byte v (w v s) := by
  simp only [store_routines, List.mem_cons, List.mem_singleton, List.not_mem_nil,
    or_false] at hw
  rcases hw with rfl | rfl | rfl | rfl | rfl | rfl | rfl | rfl
  · exact write_byte_stores_byte _ v _
  · exact write_byte_stores_byte _ v _
  · exact write_byte_stores_byte _ v _
  · exact write_byte_stores_byte _ v _
  · exact write_byte_stores_byte _ v _
  · exact write_byte_stores_byte _ v _
  · exact write_byte_stores_byte _ v _
  · exact write_byte_stores_byte _ v _

/-- C9: over plain memory, for every store routine `w` and every fetch routine `f` with an
effective address, in any combination of modes, fidelity flags and `page_cross_check`:
if the last transaction of `w v` is the write of `v` at address `a` and `f`, run
immediately afterwards, finishes with `effective_address = a`, then `f` returns `v`. -/
theorem store_then_fetch_roundtrip (sw sf pcc : Nat)
    (w : Nat → Cpu (Nat → Nat) → Cpu (Nat → Nat)) (hw : w ∈ store_routines sw)
    (f : Cpu (Nat → Nat) → Nat × Cpu (Nat → Nat)) (hf : f ∈ fetch_routines sf pcc)
    (v a : Nat) (s : Cpu (Nat → Nat))
    (hstore : (w v s).trace.getLast? = some (BusEvent.write a v))
    (hfetch : (f (w v s)).2.effective_address = a) :
    (f (w v s)).1 = v := by
  obtain ⟨a', hlast, hmem⟩ := store_routines_store_byte sw w hw v s
  obtain ⟨_, hret⟩ := fetch_routines_read_memory sf pcc f hf (w v s)
  rw [hstore] at hlast
  injection hlast with hlast
  injection hlast with ha hv
  rw [hret, hfetch, ha, hmem, Nat.mod_mod]
  exact hv.symm

/-- Witness for C9: `Write_Absolute_X` of `0x77` to base `0x0059` plus `X = 1`, followed by
`Fetch_ZeroPage` with operand byte `0x5A`, returns `0x77`. -/
theorem store_then_fetch_roundtrip_witness :
    (Fetch_ZeroPage ram (Write_Absolute_X ram SPEEDUP 0x77 (demo 0x59 0 1 0 0x0803))).1
      = 0x77 :=
  store_then_fetch_roundtrip SPEEDUP SPEEDUP 1
    (Write_Absolute_X ram SPEEDUP) (by simp [store_routines])
    (Fetch_ZeroPage ram) (List.Mem.head _)
    0x77 0x5A (demo 0x59 0 1 0 0x0803) (by decide) (by decide)

/-! ## Opcode dispatch -/

set_option maxRecDepth 100000 in
theorem switch_cases_labels : switch_cases.map Prod.fst = List.range 256 := by
  decide

set_option maxRecDepth 100000 in
theorem dispatch_isSome : ∀ instruction : Nat, instruction < 256 →
    (dispatch instruction).isSome = true := by
  decide

/-- C10: `execute_opcode` is total: for every instruction byte `0..255` the switch has a
matching case, which calls exactly one handler (`irq_handler` or one `opcode_0xNN`); the
state after `execute_opcode` is exactly the state after that one call, so the dispatch
adds no bus activity of its own, and the record of calls has exactly one entry. -/
theorem execute_opcode_total {σ : Type} (H : Handlers σ) (instruction : Nat)
    (hbyte : instruction < 256) :
    ∃ h : Handler, dispatch instruction = some h ∧
      (∀ s : σ, execute_opcode H instruction s = h.invoke H s) ∧
      execute_opcode call_log instruction [] = [h] := by
  have hsome := dispatch_isSome instruction hbyte
  obtain ⟨h, hh⟩ := Option.isSome_iff_exists.mp hsome
  refine ⟨h, hh, fun s => ?_, ?_⟩
  · simp only [execute_opcode, hh]
  · simp only [execute_opcode, hh]
    cases h <;> rfl

/-- Witness for C10: the instruction byte `0xEA`. -/
theorem execute_opcode_total_witness :
    ∃ h : Handler, dispatch 0xEA = some h ∧
      (∀ s : List Handler, execute_opcode call_log 0xEA s = h.invoke call_log s) ∧
      execute_opcode call_log 0xEA [] = [h] :=
  execute_opcode_total call_log 0xEA (by decide)

/-! ## Duplicate encodings and the interrupt entry -/

set_option maxRecDepth 100000 in
theorem dispatch_nop_duplicates :
    dispatch 0xEA = some (Handler.opcode 0xEA) ∧
    dispatch 0x1A = some (Handler.opcode 0xEA) ∧
    dispatch 0x3A = some (Handler.opcode 0xEA) ∧
    dispatch 0x5A = some (Handler.opcode 0xEA) ∧
    dispatch 0x7A = some (Handler.opcode 0xEA) ∧
    dispatch 0xDA = some (Handler.opcode 0xEA) ∧
    dispatch 0xFA = some (Handler.opcode 0xEA) ∧
    dispatch 0xE9 = some (Handler.opcode 0xE9) ∧
    dispatch 0xEB = some (Handler.opcode 0xE9) := by
  decide

/-- C11: the duplicate encodings route to the identical behaviour: for every handler
bodies and every state, `execute_opcode` on `0x1A`, `0x3A`, `0x5A`, `0x7A`, `0xDA` and
`0xFA` is the call of `opcode_0xEA`, exactly as `execute_opcode(0xEA)`, and
`execute_opcode(0xEB)` is the call of `opcode_0xE9`, exactly as `execute_opcode(0xE9)`. -/
theorem duplicate_encodings_same_effect {σ : Type} (H : Handlers σ) (s : σ) :
    (execute_opcode H 0xEA s = H.opcode 0xEA s ∧
      execute_opcode H 0x1A s = execute_opcode H 0xEA s ∧
      execute_opcode H 0x3A s = execute_opcode H 0xEA s ∧
      execute_opcode H 0x5A s = execute_opcode H 0xEA s ∧
      execute_opcode H 0x7A s = execute_opcode H 0xEA s ∧
      execute_opcode H 0xDA s = execute_opcode H 0xEA s ∧
      execute_opcode H 0xFA s = execute_opcode H 0xEA s) ∧
    (execute_opcode H 0xE9 s = H.opcode 0xE9 s ∧
      execute_opcode H 0xEB s = execute_opcode H 0xE9 s) := by
  obtain ⟨hEA, h1A, h3A, h5A, h7A, hDA, hFA, hE9, hEB⟩ := dispatch_nop_duplicates
  simp only [execute_opcode, hEA, h1A, h3A, h5A, h7A, hDA, hFA, hE9, hEB, Handler.invoke,
    and_self]

set_option maxRecDepth 100000 in
theorem dispatch_irq_only_at_zero :
    dispatch 0x00 = some (Handler.irq_handler 0x1) ∧
    ∀ instruction : Nat, instruction < 256 → instruction ≠ 0x00 →
      (dispatch instruction).map Handler.is_irq = some false := by
  decide

/-- C12: exactly one opcode value reaches the interrupt entry: `execute_opcode(0x00)` is
the call `irq_handler(1)` and calls no `opcode_0xNN`; for every instruction byte other
than `0x00`, `execute_opcode` is the call of one regular handler `opcode_0xNN` and
`irq_handler` is not called. -/
theorem only_opcode_zero_reaches_irq_handler {σ : Type} (H : Handlers σ)
    (instruction : Nat) (hbyte : instruction < 256) :
    (dispatch 0x00 = some (Handler.irq_handler 0x1) ∧
      (∀ s : σ, execute_opcode H 0x00 s = H.irq_handler 0x1 s) ∧
      execute_opcode call_log 0x00 [] = [Handler.irq_handler 0x1]) ∧
    (instruction ≠ 0x00 →
      ∃ nn : Nat, dispatch instruction = some (Handler.opcode nn) ∧
        (∀ s : σ, execute_opcode H instruction s = H.opcode nn s) ∧
        execute_opcode call_log instruction [] = [Handler.opcode nn]) := by
  obtain ⟨h0, hrest⟩ := dispatch_irq_only_at_zero
  refine ⟨⟨h0, fun s => ?_, ?_⟩, fun hne => ?_⟩
  · simp only [execute_opcode, h0, Handler.invoke]
  · simp only [execute_opcode, h0, Handler.invoke]
    rfl
  · have hi := hrest instruction hbyte hne
    cases hd : dispatch instruction with
    | none => rw [hd] at hi; cases hi
    | some h =>
      cases h with
      | irq_handler arg => rw [hd] at hi; cases hi
      | opcode nn =>
        refine ⟨nn, rfl, fun s => ?_, ?_⟩
        · simp only [execute_opcode, hd, Handler.invoke]
        · simp only [execute_opcode, hd, Handler.invoke]
          rfl

/-- Witness for C12: the instruction byte `0x4C` is not `0x00` and calls `opcode_0x4C`. -/
theorem only_opcode_zero_reaches_irq_handler_witness :
    ∃ nn : Nat, dispatch 0x4C = some (Handler.opcode nn) ∧
      (∀ s : List Handler, execute_opcode call_log 0x4C s = call_log.opcode nn s) ∧
      execute_opcode call_log 0x4C [] = [Handler.opcode nn] :=
  (only_opcode_zero_reaches_irq_handler call_log 0x4C (by decide)).2 (by decide)

/-! ## The dummy read of the zero-page indexed fetches -/

/-- With accurate timing on, the second of the three reads of `Fetch_ZeroPage_X` and
`Fetch_ZeroPage_Y` is issued at `register_pc + 1` taken after the operand fetch, that is
at the old `register_pc + 2`. -/
theorem Fetch_ZeroPage_XY_trace {β : Type} (dev : Device β) (s : Cpu β) :
    (∃ d0 d : Nat, (Fetch_ZeroPage_X dev SPEEDUP s).2.trace
      = s.trace ++ [BusEvent.read ((s.register_pc + 1) % 65536) (operand1 dev s),
          BusEvent.read ((s.register_pc + 2) % 65536) d0,
          BusEvent.read ((operand1 dev s + s.register_x) % 256) d]) ∧
    (∃ d0 d : Nat, (Fetch_ZeroPage_Y dev SPEEDUP s).2.trace
      = s.trace ++ [BusEvent.read ((s.register_pc + 1) % 65536) (operand1 dev s),
          BusEvent.read ((s.register_pc + 2) % 65536) d0,
          BusEvent.read ((operand1 dev s + s.register_y) % 256) d]) := by
  obtain ⟨x0, x, hx, _⟩ := Fetch_ZeroPage_X_run dev SPEEDUP s
  obtain ⟨y0, y, hy, _⟩ := Fetch_ZeroPage_Y_run dev SPEEDUP s
  rw [if_pos (show SPEEDUP = 0 from rfl)] at hx hy
  exact ⟨⟨x0, x, hx⟩, ⟨y0, y, hy⟩⟩

/-- C13 (the code at the failing input): from `register_pc = 0x0800` with operand byte
`0x40` and index `5`, both routines issue three reads, but the dummy read goes to
`0x0802`, the byte after the operand, not to the un-indexed zero-page address `0x0040`. -/
theorem Fetch_ZeroPage_XY_dummy_read_not_at_base :
    (Fetch_ZeroPage_X ram SPEEDUP (demo 0x40 0x11 5 5 0x45)).2.trace
      = [BusEvent.read 0x0801 0x40, BusEvent.read 0x0802 0x11, BusEvent.read 0x0045 0x5A] ∧
    (Fetch_ZeroPage_Y ram SPEEDUP (demo 0x40 0x11 5 5 0x45)).2.trace
      = [BusEvent.read 0x0801 0x40, BusEvent.read 0x0802 0x11, BusEvent.read 0x0045 0x5A] := by
  decide

/-! ## Read counts of the indirect fetches -/

/-- C14 (counterexample): with operand byte `0xF0` and `X = 0x0F`,
`Fetch_Indexed_Indirect_X` issues five reads, not four: the operand, the dummy read, the
two pointer bytes and the data. -/
theorem Fetch_Indexed_Indirect_X_reads_counterexample :
    (Fetch_Indexed_Indirect_X ram (demo 0xF0 0 0x0F 0 0x00FF)).2.trace
      = [BusEvent.read 0x0801 0xF0, BusEvent.read 0x00FF 0x5A, BusEvent.read 0x00FF 0x5A,
          BusEvent.read 0x0000 0x00, BusEvent.read 0x005A 0x00] ∧
    (Fetch_Indexed_Indirect_X ram (demo 0xF0 0 0x0F 0 0x00FF)).2.trace.length ≠ 4 := by
  decide

/-- C14 (amended): for every device, state, operand byte and `X`,
`Fetch_Indexed_Indirect_X` consumes one operand byte and performs exactly five bus reads
in total: the operand fetch, the dummy read, the pointer low byte, the pointer high byte
and the final data read. -/
theorem Fetch_Indexed_Indirect_X_five_reads {β : Type} (dev : Device β) (s : Cpu β) :
    consumes_operands dev 1 s (Fetch_Indexed_Indirect_X dev s).2 ∧
    (Fetch_Indexed_Indirect_X dev s).2.trace.length = s.trace.length + 5 ∧
    ∃ a0 a1 a2 a3 d0 d1 d2 d3 : Nat,
      (Fetch_Indexed_Indirect_X dev s).2.trace
        = s.trace ++ [BusEvent.read ((s.register_pc + 1) % 65536) d0,
            BusEvent.read a0 d1, BusEvent.read a1 d2, BusEvent.read a2 d3,
            BusEvent.read a3 (Fetch_Indexed_Indirect_X dev s).1] := by
  obtain ⟨d0, lo, hi, d, ht, hr, _, _, hpc, _⟩ := Fetch_Indexed_Indirect_X_run dev s
  refine ⟨consumes_one dev s _ _ hpc ht, ?_, ?_⟩
  · rw [ht]; simp
  · exact ⟨_, _, _, _, _, _, _, _, by rw [ht, hr]⟩

/-- C15 (counterexample): with accurate timing on and `page_cross_check = 1`,
`Fetch_Indexed_Indirect_Y` issues four reads when no page is crossed (pointer `0x0000`,
`Y = 0x10`) and five when one is (pointer `0x005A`, `Y = 0xB0`), not three and four. -/
theorem Fetch_Indexed_Indirect_Y_reads_counterexample :
    (Fetch_Indexed_Indirect_Y ram SPEEDUP 1 (demo 0x40 0 0 0x10 0x0010)).2.trace
      = [BusEvent.read 0x0801 0x40, BusEvent.read 0x0040 0x00, BusEvent.read 0x0041 0x00,
          BusEvent.read 0x0010 0x5A] ∧
    (Fetch_Indexed_Indirect_Y ram SPEEDUP 1 (demo 0x40 0 0 0xB0 0x0040)).2.trace
      = [BusEvent.read 0x0801 0x40, BusEvent.read 0x0040 0x5A, BusEvent.read 0x0041 0x00,
          BusEvent.read 0x010A 0x00, BusEvent.read 0x010A 0x00] := by
  decide

/-- C15 (amended): for every device, state, fidelity mode and `page_cross_check`,
`Fetch_Indexed_Indirect_Y` consumes one operand byte `b`, reads the pointer bytes `lo`,
`hi` at the zero-page addresses `b` and `(b + 1) mod 256` before `Y` is added, leaves
`effective_address = (lo + 256 * hi + Y) mod 65536`, and performs exactly four bus reads
when the page-crossing extra read is not taken and exactly five when it is; the extra
read is taken exactly when `SPEEDUP = 0`, `page_cross_check = 1` and the page is
crossed. -/
theorem Fetch_Indexed_Indirect_Y_four_or_five_reads {β : Type} (dev : Device β)
    (speedup pcc : Nat) (s : Cpu β) :
    consumes_operands dev 1 s (Fetch_Indexed_Indirect_Y dev speedup pcc s).2 ∧
    ∃ lo hi : Nat, lo < 256 ∧ hi < 256 ∧
      (Fetch_Indexed_Indirect_Y dev speedup pcc s).2.effective_address
        = (lo + 256 * hi + s.register_y) % 65536 ∧
      (¬ (speedup = 0 ∧ pcc = 1 ∧
            page_crossed ((lo + 256 * hi + s.register_y) % 65536) hi) →
        ∃ d1 : Nat, (Fetch_Indexed_Indirect_Y dev speedup pcc s).2.trace
          = s.trace ++ [BusEvent.read ((s.register_pc + 1) % 65536) (operand1 dev s),
              BusEvent.read (operand1 dev s) lo,
              BusEvent.read ((operand1 dev s + 1) % 256) hi,
              BusEvent.read ((lo + 256 * hi + s.register_y) % 65536) d1]) ∧
      (speedup = 0 ∧ pcc = 1 ∧
            page_crossed ((lo + 256 * hi + s.register_y) % 65536) hi →
        ∃ d1 d2 : Nat, (Fetch_Indexed_Indirect_Y dev speedup pcc s).2.trace
          = s.trace ++ [BusEvent.read ((s.register_pc + 1) % 65536) (operand1 dev s),
              BusEvent.read (operand1 dev s) lo,
              BusEvent.read ((operand1 dev s + 1) % 256) hi,
              BusEvent.read ((lo + 256 * hi + s.register_y) % 65536) d1,
              BusEvent.read ((lo + 256 * hi + s.register_y) % 65536) d2]) := by
  obtain ⟨lo, hi, d1, d2, ht, _, _, hea, hpc, _, _, hlo, hhi⟩ :=
    Fetch_Indexed_Indirect_Y_run dev speedup pcc s
  refine ⟨?_, lo, hi, hlo, hhi, hea, fun h => ⟨d1, ?_⟩, fun h => ⟨d1, d2, ?_⟩⟩
  · have ht' := ht
    simp only [List.cons_append] at ht'
    exact consumes_one dev s _ _ hpc ht'
  · rw [ht, if_neg h]; rfl
  · rw [ht, if_pos h]; rfl

/-- Witness for C15 (amended): operand byte `0x40`, `page_cross_check = 1`; the pointer
`0x0000` with `Y = 0x10` gives four reads, the pointer `0x005A` with `Y = 0xB0` five. -/
theorem Fetch_Indexed_Indirect_Y_four_or_five_reads_witness :
    (Fetch_Indexed_Indirect_Y ram SPEEDUP 1 (demo 0x40 0 0 0x10 0x0010)).2.trace.length = 4 ∧
    (Fetch_Indexed_Indirect_Y ram SPEEDUP 1 (demo 0x40 0 0 0xB0 0x0040)).2.trace.length = 5 := by
  constructor
  · obtain ⟨_, lo, hi, hlo, hhi, hea, h4, _⟩ :=
      Fetch_Indexed_Indirect_Y_four_or_five_reads ram SPEEDUP 1 (demo 0x40 0 0 0x10 0x0010)
    have e : (Fetch_Indexed_Indirect_Y ram SPEEDUP 1
        (demo 0x40 0 0 0x10 0x0010)).2.effective_address = 0x10 := by decide
    rw [e] at hea
    have hy : (demo 0x40 0 0 0x10 0x0010).register_y = 0x10 := rfl
    rw [hy] at hea h4
    obtain ⟨d1, ht⟩ := h4 (by
      rintro ⟨_, _, hc⟩
      rw [← hea] at hc
      have hh : hi = 0 := by omega
      subst hh
      exact absurd hc (by decide))
    rw [ht]; rfl
  · obtain ⟨_, lo, hi, hlo, hhi, hea, _, h5⟩ :=
      Fetch_Indexed_Indirect_Y_four_or_five_reads ram SPEEDUP 1 (demo 0x40 0 0 0xB0 0x0040)
    have e : (Fetch_Indexed_Indirect_Y ram SPEEDUP 1
        (demo 0x40 0 0 0xB0 0x0040)).2.effective_address = 0x10A := by decide
    rw [e] at hea
    have hy : (demo 0x40 0 0 0xB0 0x0040).register_y = 0xB0 := rfl
    rw [hy] at hea h5
    obtain ⟨d1, d2, ht⟩ := h5 (by
      refine ⟨rfl, rfl, ?_⟩
      rw [← hea]
      have hh : hi = 0 := by omega
      subst hh
      decide)
    rw [ht]; rfl

/-! ## The store routines, transaction by transaction -/

/-- C16: with accurate timing on (`SPEEDUP = 0`), for every device, state, operand byte
`b`, index and data byte `v`, `Write_ZeroPage_X` and `Write_ZeroPage_Y` issue exactly
three bus transactions in this order, whether or not `b + index` exceeds 255: the read of
the operand at PC+1, a dummy read at the un-indexed zero-page address `b`, and the write
of `v` at `(b + index) mod 256`. -/
theorem Write_ZeroPage_XY_three_transactions {β : Type} (dev : Device β) (v : Nat)
    (s : Cpu β) (hv : v < 256) :
    (∃ d0 : Nat, (Write_ZeroPage_X dev SPEEDUP v s).trace
      = s.trace ++ [BusEvent.read ((s.register_pc + 1) % 65536) (operand1 dev s),
          BusEvent.read (operand1 dev s) d0,
          BusEvent.write ((operand1 dev s + s.register_x) % 256) v]) ∧
    (∃ d0 : Nat, (Write_ZeroPage_Y dev SPEEDUP v s).trace
      = s.trace ++ [BusEvent.read ((s.register_pc + 1) % 65536) (operand1 dev s),
          BusEvent.read (operand1 dev s) d0,
          BusEvent.write ((operand1 dev s + s.register_y) % 256) v]) := by
  obtain ⟨x0, hx, _⟩ := Write_ZeroPage_X_run dev SPEEDUP v s
  obtain ⟨y0, hy, _⟩ := Write_ZeroPage_Y_run dev SPEEDUP v s
  rw [if_pos (show SPEEDUP = 0 from rfl), Nat.mod_eq_of_lt hv] at hx hy
  exact ⟨⟨x0, hx⟩, ⟨y0, hy⟩⟩

/-- Witness for C16: operand byte `0xF0` with index `0x20` (the sum exceeds 255) and data
byte `0x77`. -/
theorem Write_ZeroPage_XY_three_transactions_witness :
    (∃ d0 : Nat, (Write_ZeroPage_X ram SPEEDUP 0x77 (demo 0xF0 0 0x20 0x20 0)).trace
      = [] ++ [BusEvent.read ((0x0800 + 1) % 65536) (operand1 ram (demo 0xF0 0 0x20 0x20 0)),
          BusEvent.read (operand1 ram (demo 0xF0 0 0x20 0x20 0)) d0,
          BusEvent.write ((operand1 ram (demo 0xF0 0 0x20 0x20 0) + 0x20) % 256) 0x77]) ∧
    (∃ d0 : Nat, (Write_ZeroPage_Y ram SPEEDUP 0x77 (demo 0xF0 0 0x20 0x20 0)).trace
      = [] ++ [BusEvent.read ((0x0800 + 1) % 65536) (operand1 ram (demo 0xF0 0 0x20 0x20 0)),
          BusEvent.read (operand1 ram (demo 0xF0 0 0x20 0x20 0)) d0,
          BusEvent.write ((operand1 ram (demo 0xF0 0 0x20 0x20 0) + 0x20) % 256) 0x77]) ∧
    (operand1 ram (demo 0xF0 0 0x20 0x20 0) = 0xF0 ∧ (0xF0 + 0x20) % 256 = 0x10) :=
  ⟨(Write_ZeroPage_XY_three_transactions ram 0x77 (demo 0xF0 0 0x20 0x20 0) (by decide)).1,
   (Write_ZeroPage_XY_three_transactions ram 0x77 (demo 0xF0 0 0x20 0x20 0) (by decide)).2,
   by decide⟩

/-- C17 (counterexample): on base `0x10FF` with `X = 1` the low-byte addition carries; the
pre-carry address is `0x1000`, but `Write_Absolute_X` issues its dummy read at `0x1100`,
the address it then writes. -/
theorem Write_Absolute_X_dummy_read_counterexample :
    (Write_Absolute_X ram SPEEDUP 0x77 (demo 0xFF 0x10 1 0 0x1100)).trace
      = [BusEvent.read 0x0801 0xFF, BusEvent.read 0x0802 0x10,
          BusEvent.read 0x1100 0x5A, BusEvent.write 0x1100 0x77] := by
  decide

/-- C17 (amended): with accurate timing on (`SPEEDUP = 0`), for every device, state, base,
`X` and data byte `v`, `Write_Absolute_X` issues exactly four bus transactions: the two
operand reads, one dummy read at the final effective address `(base + X) mod 65536`,
issued whether or not the low-byte addition carries, and the write of `v` at that same
address; `effective_address` holds that address. -/
theorem Write_Absolute_X_four_transactions {β : Type} (dev : Device β) (v : Nat)
    (s : Cpu β) (hv : v < 256) :
    (∃ d0 : Nat, (Write_Absolute_X dev SPEEDUP v s).trace
      = s.trace ++ [BusEvent.read ((s.register_pc + 1) % 65536) (operand1 dev s),
          BusEvent.read ((s.register_pc + 2) % 65536) (operand2 dev s),
          BusEvent.read ((operand1 dev s + 256 * operand2 dev s + s.register_x) % 65536) d0,
          BusEvent.write ((operand1 dev s + 256 * operand2 dev s + s.register_x) % 65536)
            v]) ∧
    (Write_Absolute_X dev SPEEDUP v s).effective_address
      = (operand1 dev s + 256 * operand2 dev s + s.register_x) % 65536 := by
  obtain ⟨d0, ht, _, hea, _⟩ := Write_Absolute_X_run dev SPEEDUP v s
  rw [if_pos (show SPEEDUP = 0 from rfl), Nat.mod_eq_of_lt hv] at ht
  exact ⟨⟨d0, ht⟩, hea⟩

/-- Witness for C17 (amended): base `0x10FF`, `X = 1`, data byte `0x77`. -/
theorem Write_Absolute_X_four_transactions_witness :
    (∃ d0 : Nat, (Write_Absolute_X ram SPEEDUP 0x77 (demo 0xFF 0x10 1 0 0x1100)).trace
      = [] ++ [BusEvent.read ((0x0800 + 1) % 65536) (operand1 ram (demo 0xFF 0x10 1 0 0x1100)),
          BusEvent.read ((0x0800 + 2) % 65536) (operand2 ram (demo 0xFF 0x10 1 0 0x1100)),
          BusEvent.read ((operand1 ram (demo 0xFF 0x10 1 0 0x1100)
            + 256 * operand2 ram (demo 0xFF 0x10 1 0 0x1100) + 1) % 65536) d0,
          BusEvent.write ((operand1 ram (demo 0xFF 0x10 1 0 0x1100)
            + 256 * operand2 ram (demo 0xFF 0x10 1 0 0x1100) + 1) % 65536) 0x77]) ∧
    (Write_Absolute_X ram SPEEDUP 0x77 (demo 0xFF 0x10 1 0 0x1100)).effective_address
      = (operand1 ram (demo 0xFF 0x10 1 0 0x1100)
          + 256 * operand2 ram (demo 0xFF 0x10 1 0 0x1100) + 1) % 65536 :=
  Write_Absolute_X_four_transactions ram 0x77 (demo 0xFF 0x10 1 0 0x1100) (by decide)

theorem page_crossed_iff (ea hi : Nat) (hea : ea < 65536) (hhi : hi < 256) :
    page_crossed ea hi ↔ ea / 256 ≠ hi := by
  unfold page_crossed
  rw [land_ff00, land_ff00, shl_8]
  have h1 : ea / 256 % 256 = ea / 256 := Nat.mod_eq_of_lt (by omega)
  have h2 : hi * 256 % 65536 / 256 % 256 = hi := by omega
  rw [h1, h2]
  constructor
  · intro h e; exact h (by rw [e])
  · intro h e; exact h (by omega)

/-- C18: with accurate timing on (`SPEEDUP = 0`), for every device, state, base, `Y` and
data byte `v`, `Write_Absolute_Y` issues, after the two operand reads, one read at the
indexed address `EA = (base + Y) mod 65536` in every case, a second read at `EA` if and
only if the high byte of `EA` differs from the high byte of the base, and then the write
of `v` at `EA`: four bus transactions without a page crossing, five with one. -/
theorem Write_Absolute_Y_read_before_write {β : Type} (dev : Device β) (v : Nat)
    (s : Cpu β) (hv : v < 256) :
    ((operand1 dev s + 256 * operand2 dev s + s.register_y) % 65536 / 256 = operand2 dev s →
      ∃ d0 : Nat, (Write_Absolute_Y dev SPEEDUP v s).trace
        = s.trace ++ [BusEvent.read ((s.register_pc + 1) % 65536) (operand1 dev s),
            BusEvent.read ((s.register_pc + 2) % 65536) (operand2 dev s),
            BusEvent.read ((operand1 dev s + 256 * operand2 dev s + s.register_y) % 65536) d0,
            BusEvent.write ((operand1 dev s + 256 * operand2 dev s + s.register_y) % 65536)
              v]) ∧
    ((operand1 dev s + 256 * operand2 dev s + s.register_y) % 65536 / 256 ≠ operand2 dev s →
      ∃ d0 d1 : Nat, (Write_Absolute_Y dev SPEEDUP v s).trace
        = s.trace ++ [BusEvent.read ((s.register_pc + 1) % 65536) (operand1 dev s),
            BusEvent.read ((s.register_pc + 2) % 65536) (operand2 dev s),
            BusEvent.read ((operand1 dev s + 256 * operand2 dev s + s.register_y) % 65536) d0,
            BusEvent.read ((operand1 dev s + 256 * operand2 dev s + s.register_y) % 65536) d1,
            BusEvent.write ((operand1 dev s + 256 * operand2 dev s + s.register_y) % 65536)
              v]) := by
  obtain ⟨d0, d1, ht, _⟩ := Write_Absolute_Y_run dev SPEEDUP v s
  have hiff := page_crossed_iff
    ((operand1 dev s + 256 * operand2 dev s + s.register_y) % 65536) (operand2 dev s)
    (Nat.mod_lt _ (by decide)) (operand2_lt dev s)
  rw [Nat.mod_eq_of_lt hv] at ht
  constructor
  · intro h
    have hn : ¬ (SPEEDUP = 0 ∧ page_crossed
        ((operand1 dev s + 256 * operand2 dev s + s.register_y) % 65536) (operand2 dev s)) :=
      fun hc => (hiff.mp hc.2) h
    rw [if_neg hn] at ht
    exact ⟨d0, ht⟩
  · intro h
    rw [if_pos ⟨rfl, hiff.mpr h⟩] at ht
    exact ⟨d0, d1, ht⟩

/-- Witness for C18: base `0x10FF` with `Y = 1` crosses a page (five transactions), with
`Y = 0` it does not (four). -/
theorem Write_Absolute_Y_read_before_write_witness :
    (Write_Absolute_Y ram SPEEDUP 0x77 (demo 0xFF 0x10 0 0 0x1100)).trace.length = 4 ∧
    (Write_Absolute_Y ram SPEEDUP 0x77 (demo 0xFF 0x10 0 1 0x1100)).trace.length = 5 := by
  constructor
  · obtain ⟨d0, ht⟩ :=
      (Write_Absolute_Y_read_before_write ram 0x77 (demo 0xFF 0x10 0 0 0x1100) (by decide)).1
        (by decide)
    rw [ht]; rfl
  · obtain ⟨d0, d1, ht⟩ :=
      (Write_Absolute_Y_read_before_write ram 0x77 (demo 0xFF 0x10 0 1 0x1100) (by decide)).2
        (by decide)
    rw [ht]; rfl

/-! ## Store forms against fetch forms of the indirect modes -/

/-- C19 (the code at the failing input): from the same state, with operand byte `0xF0`
and `X = 0x20`, `Fetch_Indexed_Indirect_X` issues its dummy read at `0x0110` (the
unmasked sum `b + X`), `Write_Indexed_Indirect_X` issues it at `0x00F0` (the operand
byte); the pointer reads and the effective address agree. -/
theorem Indexed_Indirect_X_dummy_reads_differ :
    (Fetch_Indexed_Indirect_X ram (demo 0xF0 0 0x20 0 0x0010)).2.trace
      = [BusEvent.read 0x0801 0xF0, BusEvent.read 0x0110 0x00, BusEvent.read 0x0010 0x5A,
          BusEvent.read 0x0011 0x00, BusEvent.read 0x005A 0x00] ∧
    (Write_Indexed_Indirect_X ram 0x77 (demo 0xF0 0 0x20 0 0x0010)).trace
      = [BusEvent.read 0x0801 0xF0, BusEvent.read 0x00F0 0x00, BusEvent.read 0x0010 0x5A,
          BusEvent.read 0x0011 0x00, BusEvent.write 0x005A 0x77] := by
  decide

/-- C20 (the code at the failing input): from the same state, with operand byte `0xFF`
and `Y = 1`, `Fetch_Indexed_Indirect_Y` reads the pointer high byte at `0x0000` and
computes the effective address `0x0001`, `Write_Indexed_Indirect_Y` reads it at `0x0100`
and writes at `0x5A01`. -/
theorem Indexed_Indirect_Y_pointer_high_differs :
    (Fetch_Indexed_Indirect_Y ram SPEEDUP 1 (demo 0xFF 0 0 1 0x0100)).2.trace
      = [BusEvent.read 0x0801 0xFF, BusEvent.read 0x00FF 0x00, BusEvent.read 0x0000 0x00,
          BusEvent.read 0x0001 0x00] ∧
    (Fetch_Indexed_Indirect_Y ram SPEEDUP 1 (demo 0xFF 0 0 1 0x0100)).2.effective_address
      = 0x0001 ∧
    (Write_Indexed_Indirect_Y ram SPEEDUP 0x77 (demo 0xFF 0 0 1 0x0100)).trace
      = [BusEvent.read 0x0801 0xFF, BusEvent.read 0x00FF 0x00, BusEvent.read 0x0100 0x5A,
          BusEvent.read 0x5A01 0x00, BusEvent.write 0x5A01 0x77] ∧
    (Write_Indexed_Indirect_Y ram SPEEDUP 0x77 (demo 0xFF 0 0 1 0x0100)).effective_address
      = 0x5A01 := by
  decide

/-- Over plain memory the two indexed-indirect X forms resolve the same pointer:
`Write_Indexed_Indirect_X` leaves the effective address `Fetch_Indexed_Indirect_X`
leaves; only their dummy reads go to different addresses. -/
theorem Indexed_Indirect_X_same_effective_address (v : Nat) (s : Cpu (Nat → Nat)) :
    (Write_Indexed_Indirect_X ram v s).effective_address
      = (Fetch_Indexed_Indirect_X ram s).2.effective_address := by
  simp only [Write_Indexed_Indirect_X, Fetch_Indexed_Indirect_X, write_byte, Fetch_Immediate,
    read_byte, ram, Nat.mod_mod, land_ff, mod_256_mod, mod_mod_256, succ_mod_256]

/-- Over plain memory and for an operand byte other than `0xFF` the two indirect-indexed
Y forms resolve the same pointer and leave the same effective address. -/
theorem Indexed_Indirect_Y_same_effective_address (sw sf pcc v : Nat)
    (s : Cpu (Nat → Nat)) (hb : operand1 ram s ≠ 0xFF) :
    (Write_Indexed_Indirect_Y ram sw v s).effective_address
      = (Fetch_Indexed_Indirect_Y ram sf pcc s).2.effective_address := by
  have hlt := operand1_lt ram s
  have h1 : (operand1 ram s + 1) % 65536 = (operand1 ram s + 1) % 256 := by omega
  simp only [operand1, Fetch_Immediate, read_byte, ram, Nat.mod_mod] at h1
  by_cases h : sw = 0 <;>
    simp only [Write_Indexed_Indirect_Y, Fetch_Indexed_Indirect_Y, write_byte,
      Fetch_Immediate, read_byte, ram, Nat.mod_mod, land_ff, mod_256_mod, h1, h, if_true,
      if_false] <;>
    split <;> rfl

/-! ## The fixup read of the indirect-indexed store -/

/-- C21: with accurate timing on (`SPEEDUP = 0`), for every device, state, operand byte,
pointer contents, `Y` and data byte `v`, `Write_Indexed_Indirect_Y` issues exactly four
reads followed by one write; the fourth read is at the final `effective_address`, which
is the pointer plus `Y` (mod 65536), and the write goes to that same address, whether or
not adding `Y` crosses a page. -/
theorem Write_Indexed_Indirect_Y_fixup_read {β : Type} (dev : Device β) (v : Nat)
    (s : Cpu β) (hv : v < 256) :
    ∃ lo hi d0 : Nat,
      (Write_Indexed_Indirect_Y dev SPEEDUP v s).trace
        = s.trace ++ [BusEvent.read ((s.register_pc + 1) % 65536) (operand1 dev s),
            BusEvent.read (operand1 dev s) lo,
            BusEvent.read (operand1 dev s + 1) hi,
            BusEvent.read (Write_Indexed_Indirect_Y dev SPEEDUP v s).effective_address d0,
            BusEvent.write (Write_Indexed_Indirect_Y dev SPEEDUP v s).effective_address v] ∧
      (Write_Indexed_Indirect_Y dev SPEEDUP v s).effective_address
        = (lo + 256 * hi + s.register_y) % 65536 := by
  obtain ⟨lo, hi, d0, ht, _, hea, _⟩ := Write_Indexed_Indirect_Y_run dev SPEEDUP v s
  rw [if_pos (show SPEEDUP = 0 from rfl), Nat.mod_eq_of_lt hv] at ht
  exact ⟨lo, hi, d0, by rw [ht, hea]; rfl, hea⟩

/-- Witness for C21: operand byte `0x40`, pointer `0x005A`, data byte `0x77`; with
`Y = 0xB0` adding `Y` crosses a page. -/
theorem Write_Indexed_Indirect_Y_fixup_read_witness :
    (Write_Indexed_Indirect_Y ram SPEEDUP 0x77 (demo 0x40 0 0 0xB0 0x0040)).trace
      = [BusEvent.read 0x0801 0x40, BusEvent.read 0x0040 0x5A, BusEvent.read 0x0041 0x00,
          BusEvent.read 0x010A 0x00, BusEvent.write 0x010A 0x77] ∧
    ∃ lo hi d0 : Nat,
      (Write_Indexed_Indirect_Y ram SPEEDUP 0x77 (demo 0x40 0 0 0xB0 0x0040)).trace
        = [] ++ [BusEvent.read ((0x0800 + 1) % 65536) (operand1 ram (demo 0x40 0 0 0xB0 0x0040)),
            BusEvent.read (operand1 ram (demo 0x40 0 0 0xB0 0x0040)) lo,
            BusEvent.read (operand1 ram (demo 0x40 0 0 0xB0 0x0040) + 1) hi,
            BusEvent.read
              (Write_Indexed_Indirect_Y ram SPEEDUP 0x77
                (demo 0x40 0 0 0xB0 0x0040)).effective_address d0,
            BusEvent.write
              (Write_Indexed_Indirect_Y ram SPEEDUP 0x77
                (demo 0x40 0 0 0xB0 0x0040)).effective_address 0x77] ∧
      (Write_Indexed_Indirect_Y ram SPEEDUP 0x77 (demo 0x40 0 0 0xB0 0x0040)).effective_address
        = (lo + 256 * hi + 0xB0) % 65536 :=
  ⟨by decide,
   Write_Indexed_Indirect_Y_fixup_read ram 0x77 (demo 0x40 0 0 0xB0 0x0040) (by decide)⟩

/-! ## The index registers are only read -/

/-- C22: every routine of the addressing-mode engine (all `Fetch_*`, `Calculate_Absolute`,
all `Write_*`, `Double_WriteBack`) leaves `register_x` and `register_y` equal to their
values on entry, for every device, state, fidelity mode, `page_cross_check` and data
byte. -/
theorem routines_preserve_index_registers {β : Type} (dev : Device β)
    (speedup pcc v : Nat) (s : Cpu β) :
    (((Fetch_Immediate dev s).2.register_x = s.register_x ∧
        (Fetch_Immediate dev s).2.register_y = s.register_y) ∧
      ((Fetch_ZeroPage dev s).2.register_x = s.register_x ∧
        (Fetch_ZeroPage dev s).2.register_y = s.register_y) ∧
      ((Fetch_ZeroPage_X dev speedup s).2.register_x = s.register_x ∧
        (Fetch_ZeroPage_X dev speedup s).2.register_y = s.register_y) ∧
      ((Fetch_ZeroPage_Y dev speedup s).2.register_x = s.register_x ∧
        (Fetch_ZeroPage_Y dev speedup s).2.register_y = s.register_y) ∧
      ((Calculate_Absolute dev s).2.register_x = s.register_x ∧
        (Calculate_Absolute dev s).2.register_y = s.register_y) ∧
      ((Fetch_Absolute dev s).2.register_x = s.register_x ∧
        (Fetch_Absolute dev s).2.register_y = s.register_y) ∧
      ((Fetch_Absolute_X dev speedup pcc s).2.register_x = s.register_x ∧
        (Fetch_Absolute_X dev speedup pcc s).2.register_y = s.register_y) ∧
      ((Fetch_Absolute_Y dev speedup pcc s).2.register_x = s.register_x ∧
        (Fetch_Absolute_Y dev speedup pcc s).2.register_y = s.register_y) ∧
      ((Fetch_Indexed_Indirect_X dev s).2.register_x = s.register_x ∧
        (Fetch_Indexed_Indirect_X dev s).2.register_y = s.register_y) ∧
      ((Fetch_Indexed_Indirect_Y dev speedup pcc s).2.register_x = s.register_x ∧
        (Fetch_Indexed_Indirect_Y dev speedup pcc s).2.register_y = s.register_y)) ∧
    (((Write_ZeroPage dev v s).register_x = s.register_x ∧
        (Write_ZeroPage dev v s).register_y = s.register_y) ∧
      ((Write_Absolute dev v s).register_x = s.register_x ∧
        (Write_Absolute dev v s).register_y = s.register_y) ∧
      ((Write_ZeroPage_X dev speedup v s).register_x = s.register_x ∧
        (Write_ZeroPage_X dev speedup v s).register_y = s.register_y) ∧
      ((Write_ZeroPage_Y dev speedup v s).register_x = s.register_x ∧
        (Write_ZeroPage_Y dev speedup v s).register_y = s.register_y) ∧
      ((Write_Absolute_X dev speedup v s).register_x = s.register_x ∧
        (Write_Absolute_X dev speedup v s).register_y = s.register_y) ∧
      ((Write_Absolute_Y dev speedup v s).register_x = s.register_x ∧
        (Write_Absolute_Y dev speedup v s).register_y = s.register_y) ∧
      ((Write_Indexed_Indirect_X dev v s).register_x = s.register_x ∧
        (Write_Indexed_Indirect_X dev v s).register_y = s.register_y) ∧
      ((Write_Indexed_Indirect_Y dev speedup v s).register_x = s.register_x ∧
        (Write_Indexed_Indirect_Y dev speedup v s).register_y = s.register_y) ∧
      ((Double_WriteBack dev speedup v s).register_x = s.register_x ∧
        (Double_WriteBack dev speedup v s).register_y = s.register_y)) := by
  refine ⟨⟨?_, ?_, ?_, ?_, ?_, ?_, ?_, ?_, ?_, ?_⟩, ⟨?_, ?_, ?_, ?_, ?_, ?_, ?_, ?_, ?_⟩⟩
  · exact ⟨rfl, rfl⟩
  · exact ⟨rfl, rfl⟩
  · obtain ⟨_, _, _, _, _, _, _, hx, hy⟩ := Fetch_ZeroPage_X_run dev speedup s
    exact ⟨hx, hy⟩
  · obtain ⟨_, _, _, _, _, _, _, hx, hy⟩ := Fetch_ZeroPage_Y_run dev speedup s
    exact ⟨hx, hy⟩
  · exact ⟨rfl, rfl⟩
  · exact ⟨rfl, rfl⟩
  · obtain ⟨_, _, _, _, _, _, _, hx, hy⟩ := Fetch_Absolute_X_run dev speedup pcc s
    exact ⟨hx, hy⟩
  · obtain ⟨_, _, _, _, _, _, _, hx, hy⟩ := Fetch_Absolute_Y_run dev speedup pcc s
    exact ⟨hx, hy⟩
  · exact ⟨rfl, rfl⟩
  · obtain ⟨_, _, _, _, _, _, _, _, _, hx, hy, _⟩ :=
      Fetch_Indexed_Indirect_Y_run dev speedup pcc s
    exact ⟨hx, hy⟩
  · exact ⟨rfl, rfl⟩
  · exact ⟨rfl, rfl⟩
  · obtain ⟨_, _, _, _, _, hx, hy⟩ := Write_ZeroPage_X_run dev speedup v s
    exact ⟨hx, hy⟩
  · obtain ⟨_, _, _, _, _, hx, hy⟩ := Write_ZeroPage_Y_run dev speedup v s
    exact ⟨hx, hy⟩
  · obtain ⟨_, _, _, _, _, hx, hy⟩ := Write_Absolute_X_run dev speedup v s
    exact ⟨hx, hy⟩
  · obtain ⟨_, _, _, _, _, _, hx, hy⟩ := Write_Absolute_Y_run dev speedup v s
    exact ⟨hx, hy⟩
  · exact ⟨rfl, rfl⟩
  · obtain ⟨_, _, _, _, _, _, _, hx, hy, _⟩ := Write_Indexed_Indirect_Y_run dev speedup v s
    exact ⟨hx, hy⟩
  · obtain ⟨_, _, _, _, hx, hy⟩ := Double_WriteBack_run dev speedup v s
    exact ⟨hx, hy⟩

/-! ## The fidelity flag has no logical effect over plain memory -/

theorem ram_write_write (m : Nat → Nat) (a d v : Nat) :
    ram.write (ram.write m a d) a v = ram.write m a v := by
  funext b
  simp only [ram]
  split <;> rfl

theorem Fetch_ZeroPage_X_speedup (sp : Nat) (s : Cpu (Nat → Nat)) :
    (Fetch_ZeroPage_X ram SPEEDUP s).1 = (Fetch_ZeroPage_X ram sp s).1 ∧
    (Fetch_ZeroPage_X ram SPEEDUP s).2.logical = (Fetch_ZeroPage_X ram sp s).2.logical := by
  by_cases h : sp = 0 <;>
    simp only [Fetch_ZeroPage_X, Fetch_Immediate, read_byte, ram, Cpu.logical, SPEEDUP, h,
      if_true, if_false, and_self]

theorem Fetch_ZeroPage_Y_speedup (sp : Nat) (s : Cpu (Nat → Nat)) :
    (Fetch_ZeroPage_Y ram SPEEDUP s).1 = (Fetch_ZeroPage_Y ram sp s).1 ∧
    (Fetch_ZeroPage_Y ram SPEEDUP s).2.logical = (Fetch_ZeroPage_Y ram sp s).2.logical := by
  by_cases h : sp = 0 <;>
    simp only [Fetch_ZeroPage_Y, Fetch_Immediate, read_byte, ram, Cpu.logical, SPEEDUP, h,
      if_true, if_false, and_self]

theorem Fetch_Absolute_X_speedup (sp pcc : Nat) (s : Cpu (Nat → Nat)) :
    (Fetch_Absolute_X ram SPEEDUP pcc s).1 = (Fetch_Absolute_X ram sp pcc s).1 ∧
    (Fetch_Absolute_X ram SPEEDUP pcc s).2.logical
      = (Fetch_Absolute_X ram sp pcc s).2.logical := by
  simp only [Fetch_Absolute_X, Fetch_Immediate, read_byte, ram, Cpu.logical, SPEEDUP]
  split <;> split <;> simp only [Nat.mod_mod, and_self]

theorem Fetch_Absolute_Y_speedup (sp pcc : Nat) (s : Cpu (Nat → Nat)) :
    (Fetch_Absolute_Y ram SPEEDUP pcc s).1 = (Fetch_Absolute_Y ram sp pcc s).1 ∧
    (Fetch_Absolute_Y ram SPEEDUP pcc s).2.logical
      = (Fetch_Absolute_Y ram sp pcc s).2.logical := by
  simp only [Fetch_Absolute_Y, Fetch_Immediate, read_byte, ram, Cpu.logical, SPEEDUP]
  split <;> split <;> simp only [Nat.mod_mod, and_self]

theorem Fetch_Indexed_Indirect_Y_speedup (sp pcc : Nat) (s : Cpu (Nat → Nat)) :
    (Fetch_Indexed_Indirect_Y ram SPEEDUP pcc s).1
      = (Fetch_Indexed_Indirect_Y ram sp pcc s).1 ∧
    (Fetch_Indexed_Indirect_Y ram SPEEDUP pcc s).2.logical
      = (Fetch_Indexed_Indirect_Y ram sp pcc s).2.logical := by
  simp only [Fetch_Indexed_Indirect_Y, Fetch_Immediate, read_byte, ram, Cpu.logical, SPEEDUP]
  split <;> split <;> simp only [Nat.mod_mod, and_self]

theorem Write_ZeroPage_X_speedup (sp v : Nat) (s : Cpu (Nat → Nat)) :
    (Write_ZeroPage_X ram SPEEDUP v s).logical = (Write_ZeroPage_X ram sp v s).logical := by
  by_cases h : sp = 0 <;>
    simp only [Write_ZeroPage_X, write_byte, Fetch_Immediate, read_byte, ram, Cpu.logical,
      SPEEDUP, h, if_true, if_false]

theorem Write_ZeroPage_Y_speedup (sp v : Nat) (s : Cpu (Nat → Nat)) :
    (Write_ZeroPage_Y ram SPEEDUP v s).logical = (Write_ZeroPage_Y ram sp v s).logical := by
  by_cases h : sp = 0 <;>
    simp only [Write_ZeroPage_Y, write_byte, Fetch_Immediate, read_byte, ram, Cpu.logical,
      SPEEDUP, h, if_true, if_false]

theorem Write_Absolute_X_speedup (sp v : Nat) (s : Cpu (Nat → Nat)) :
    (Write_Absolute_X ram SPEEDUP v s).logical = (Write_Absolute_X ram sp v s).logical := by
  by_cases h : sp = 0 <;>
    simp only [Write_Absolute_X, write_byte, Fetch_Immediate, read_byte, ram, Cpu.logical,
      SPEEDUP, h, if_true, if_false]

theorem Write_Absolute_Y_speedup (sp v : Nat) (s : Cpu (Nat → Nat)) :
    (Write_Absolute_Y ram SPEEDUP v s).logical = (Write_Absolute_Y ram sp v s).logical := by
  by_cases h : sp = 0
  · simp only [SPEEDUP, h]
  · simp only [Write_Absolute_Y, write_byte, Fetch_Immediate, read_byte, ram, Cpu.logical,
      SPEEDUP, h, if_true, if_false]
    split <;> rfl

theorem Write_Indexed_Indirect_Y_speedup (sp v : Nat) (s : Cpu (Nat → Nat)) :
    (Write_Indexed_Indirect_Y ram SPEEDUP v s).logical
      = (Write_Indexed_Indirect_Y ram sp v s).logical := by
  by_cases h : sp = 0 <;>
    simp only [Write_Indexed_Indirect_Y, write_byte, Fetch_Immediate, read_byte, ram,
      Cpu.logical, SPEEDUP, h, if_true, if_false]

theorem Double_WriteBack_speedup (sp v : Nat) (s : Cpu (Nat → Nat)) :
    (Double_WriteBack ram SPEEDUP v s).logical = (Double_WriteBack ram sp v s).logical := by
  by_cases h : sp = 0
  · simp only [SPEEDUP, h]
  · have hw := ram_write_write s.bus (s.effective_address % 65536) (s.ea_data % 256) (v % 256)
    simp only [Double_WriteBack, write_byte, Cpu.logical, SPEEDUP, h, if_true, if_false, hw]

/-- C23: with the fidelity flag as a parameter, over plain memory and from the same state,
every routine that tests the flag yields with accurate timing on (`SPEEDUP = 0`) and with
any other value `sp` of the flag the same return value and the same `register_pc`,
`effective_address`, `ea_data`, index registers and memory contents; the runs can differ
in the bus trace only.  The remaining routines (`Fetch_Immediate`, `Fetch_ZeroPage`,
`Calculate_Absolute`, `Fetch_Absolute`, `Fetch_Indexed_Indirect_X`, `Write_ZeroPage`,
`Write_Absolute`, `Write_Indexed_Indirect_X`) do not test the flag at all. -/
theorem speedup_has_no_logical_effect (sp pcc v : Nat) (s : Cpu (Nat → Nat)) :
    (((Fetch_ZeroPage_X ram SPEEDUP s).1 = (Fetch_ZeroPage_X ram sp s).1 ∧
        (Fetch_ZeroPage_X ram SPEEDUP s).2.logical = (Fetch_ZeroPage_X ram sp s).2.logical) ∧
      ((Fetch_ZeroPage_Y ram SPEEDUP s).1 = (Fetch_ZeroPage_Y ram sp s).1 ∧
        (Fetch_ZeroPage_Y ram SPEEDUP s).2.logical = (Fetch_ZeroPage_Y ram sp s).2.logical) ∧
      ((Fetch_Absolute_X ram SPEEDUP pcc s).1 = (Fetch_Absolute_X ram sp pcc s).1 ∧
        (Fetch_Absolute_X ram SPEEDUP pcc s).2.logical
          = (Fetch_Absolute_X ram sp pcc s).2.logical) ∧
      ((Fetch_Absolute_Y ram SPEEDUP pcc s).1 = (Fetch_Absolute_Y ram sp pcc s).1 ∧
        (Fetch_Absolute_Y ram SPEEDUP pcc s).2.logical
          = (Fetch_Absolute_Y ram sp pcc s).2.logical) ∧
      ((Fetch_Indexed_Indirect_Y ram SPEEDUP pcc s).1
          = (Fetch_Indexed_Indirect_Y ram sp pcc s).1 ∧
        (Fetch_Indexed_Indirect_Y ram SPEEDUP pcc s).2.logical
          = (Fetch_Indexed_Indirect_Y ram sp pcc s).2.logical)) ∧
    ((Write_ZeroPage_X ram SPEEDUP v s).logical = (Write_ZeroPage_X ram sp v s).logical ∧
      (Write_ZeroPage_Y ram SPEEDUP v s).logical = (Write_ZeroPage_Y ram sp v s).logical ∧
      (Write_Absolute_X ram SPEEDUP v s).logical = (Write_Absolute_X ram sp v s).logical ∧
      (Write_Absolute_Y ram SPEEDUP v s).logical = (Write_Absolute_Y ram sp v s).logical ∧
      (Write_Indexed_Indirect_Y ram SPEEDUP v s).logical
        = (Write_Indexed_Indirect_Y ram sp v s).logical ∧
      (Double_WriteBack ram SPEEDUP v s).logical = (Double_WriteBack ram sp v s).logical) :=
  ⟨⟨Fetch_ZeroPage_X_speedup sp s, Fetch_ZeroPage_Y_speedup sp s,
      Fetch_Absolute_X_speedup sp pcc s, Fetch_Absolute_Y_speedup sp pcc s,
      Fetch_Indexed_Indirect_Y_speedup sp pcc s⟩,
    Write_ZeroPage_X_speedup sp v s, Write_ZeroPage_Y_speedup sp v s,
    Write_Absolute_X_speedup sp v s, Write_Absolute_Y_speedup sp v s,
    Write_Indexed_Indirect_Y_speedup sp v s, Double_WriteBack_speedup sp v s⟩

/-! ## The effective address after a store -/

/-- The six store routines other than the zero-page indexed ones end with a write at the
final `effective_address`. -/
theorem store_routines_write_at_effective_address {β : Type} (dev : Device β)
    (speedup v : Nat) (s : Cpu β) :
    (Write_ZeroPage dev v s).trace.getLast?
        = some (BusEvent.write (Write_ZeroPage dev v s).effective_address (v % 256)) ∧
    (Write_Absolute dev v s).trace.getLast?
        = some (BusEvent.write (Write_Absolute dev v s).effective_address (v % 256)) ∧
    (Write_Absolute_X dev speedup v s).trace.getLast?
        = some (BusEvent.write (Write_Absolute_X dev speedup v s).effective_address
            (v % 256)) ∧
    (Write_Absolute_Y dev speedup v s).trace.getLast?
        = some (BusEvent.write (Write_Absolute_Y dev speedup v s).effective_address
            (v % 256)) ∧
    (Write_Indexed_Indirect_X dev v s).trace.getLast?
        = some (BusEvent.write (Write_Indexed_Indirect_X dev v s).effective_address
            (v % 256)) ∧
    (Write_Indexed_Indirect_Y dev speedup v s).trace.getLast?
        = some (BusEvent.write (Write_Indexed_Indirect_Y dev speedup v s).effective_address
            (v % 256)) := by
  refine ⟨?_, ?_, ?_, ?_, ?_, ?_⟩
  · obtain ⟨ht, _, hea, _⟩ := Write_ZeroPage_run dev v s
    rw [ht, hea]; simp
  · obtain ⟨ht, _, hea, _⟩ := Write_Absolute_run dev v s
    rw [ht, hea]; simp
  · obtain ⟨d0, ht, _, hea, _⟩ := Write_Absolute_X_run dev speedup v s
    rw [ht, hea, ← List.append_assoc, List.getLast?_concat]
  · obtain ⟨d0, d1, ht, _, hea, _⟩ := Write_Absolute_Y_run dev speedup v s
    rw [ht, hea, ← List.append_assoc, List.getLast?_concat]
  · obtain ⟨d0, lo, hi, ht, _, hea, _⟩ := Write_Indexed_Indirect_X_run dev v s
    rw [ht, hea]; simp
  · obtain ⟨lo, hi, d0, ht, _, hea, _⟩ := Write_Indexed_Indirect_Y_run dev speedup v s
    rw [ht, hea, ← List.append_assoc, List.getLast?_concat]

/-- C24 (the code at the failing input): with operand byte `0x40` and index `5`,
`Write_ZeroPage_X` and `Write_ZeroPage_Y` write at `0x0045`, the indexed address, but
leave `effective_address = 0x0040`, the un-indexed operand byte. -/
theorem Write_ZeroPage_XY_effective_address_not_indexed :
    ((Write_ZeroPage_X ram SPEEDUP 0x77 (demo 0x40 0 5 5 0)).trace.getLast?
        = some (BusEvent.write 0x0045 0x77) ∧
      (Write_ZeroPage_X ram SPEEDUP 0x77 (demo 0x40 0 5 5 0)).effective_address = 0x0040) ∧
    ((Write_ZeroPage_Y ram SPEEDUP 0x77 (demo 0x40 0 5 5 0)).trace.getLast?
        = some (BusEvent.write 0x0045 0x77) ∧
      (Write_ZeroPage_Y ram SPEEDUP 0x77 (demo 0x40 0 5 5 0)).effective_address = 0x0040) := by
  decide

/-! ## Page crossing is the carry out of the low byte -/

theorem page_crossed_carry (bal bah i : Nat) (hbal : bal < 256) (hbah : bah < 256)
    (hi : i < 256) :
    page_crossed ((bal + 256 * bah + i) % 65536) bah ↔ 256 ≤ bal + i := by
  rw [page_crossed_iff _ _ (Nat.mod_lt _ (by decide)) hbah]
  constructor
  · intro h
    by_contra hc
    exact h (by omega)
  · intro h e
    omega

/-- C25: for every base with low byte `bal` and high byte `bah` and every 8-bit index `i`,
the page-crossing test of the source, `(0xFF00 & ea) != (0xFF00 & bah)` with
`ea = (base + i) mod 65536`, holds exactly when the high byte of `ea` differs from `bah`,
and exactly when `bal + i >= 256`; at `bah = 0xFF` a carry wraps the high byte to `0x00`.
Accordingly, with accurate timing on, `Fetch_Absolute_X`, `Fetch_Absolute_Y` (called with
`page_cross_check = 1`) and `Write_Absolute_Y` issue their extra read exactly when the
low byte of the base plus the index reaches 256, and so does
`Fetch_Indexed_Indirect_Y` for the low byte of its pointer. -/
theorem page_cross_test_iff_low_byte_carry {β : Type} (dev : Device β) (v : Nat) (s : Cpu β)
    (hx : s.register_x < 256) (hy : s.register_y < 256) :
    (∀ bal bah i : Nat, bal < 256 → bah < 256 → i < 256 →
      ((page_crossed ((bal + 256 * bah + i) % 65536) bah ↔ 256 ≤ bal + i) ∧
        ((bal + 256 * bah + i) % 65536 / 256 ≠ bah ↔ 256 ≤ bal + i) ∧
        (bah = 0xFF → 256 ≤ bal + i → (bal + 256 * bah + i) % 65536 / 256 = 0x00))) ∧
    ((Fetch_Absolute_X dev SPEEDUP 1 s).2.trace.length = s.trace.length + 4
      ↔ 256 ≤ operand1 dev s + s.register_x) ∧
    ((Fetch_Absolute_Y dev SPEEDUP 1 s).2.trace.length = s.trace.length + 4
      ↔ 256 ≤ operand1 dev s + s.register_y) ∧
    ((Write_Absolute_Y dev SPEEDUP v s).trace.length = s.trace.length + 5
      ↔ 256 ≤ operand1 dev s + s.register_y) ∧
    (∃ lo hi : Nat, ∃ rest : List BusEvent,
      (Fetch_Indexed_Indirect_Y dev SPEEDUP 1 s).2.trace
        = s.trace ++ (BusEvent.read ((s.register_pc + 1) % 65536) (operand1 dev s)
            :: BusEvent.read (operand1 dev s) lo
            :: BusEvent.read ((operand1 dev s + 1) % 256) hi :: rest) ∧
      (rest.length = 2 ↔ 256 ≤ lo + s.register_y)) := by
  have h1 := operand1_lt dev s
  have h2 := operand2_lt dev s
  refine ⟨fun bal bah i hbal hbah hi => ⟨page_crossed_carry bal bah i hbal hbah hi, ?_, ?_⟩,
    ?_, ?_, ?_, ?_⟩
  · rw [← page_crossed_iff _ _ (Nat.mod_lt _ (by decide)) hbah]
    exact page_crossed_carry bal bah i hbal hbah hi
  · intro hb hc
    omega
  · obtain ⟨d1, d2, ht, _⟩ := Fetch_Absolute_X_run dev SPEEDUP 1 s
    have hc := page_crossed_carry (operand1 dev s) (operand2 dev s) s.register_x h1 h2 hx
    by_cases h : page_crossed
        ((operand1 dev s + 256 * operand2 dev s + s.register_x) % 65536) (operand2 dev s)
    · rw [if_pos ⟨rfl, rfl, h⟩] at ht
      rw [ht]
      simp only [List.length_append, List.length_cons, List.length_nil]
      exact ⟨fun _ => hc.mp h, fun _ => trivial⟩
    · rw [if_neg (fun hh => h hh.2.2)] at ht
      rw [ht]
      simp only [List.length_append, List.length_cons, List.length_nil]
      exact ⟨fun e => by omega, fun e => absurd (hc.mpr e) h⟩
  · obtain ⟨d1, d2, ht, _⟩ := Fetch_Absolute_Y_run dev SPEEDUP 1 s
    have hc := page_crossed_carry (operand1 dev s) (operand2 dev s) s.register_y h1 h2 hy
    by_cases h : page_crossed
        ((operand1 dev s + 256 * operand2 dev s + s.register_y) % 65536) (operand2 dev s)
    · rw [if_pos ⟨rfl, rfl, h⟩] at ht
      rw [ht]
      simp only [List.length_append, List.length_cons, List.length_nil]
      exact ⟨fun _ => hc.mp h, fun _ => trivial⟩
    · rw [if_neg (fun hh => h hh.2.2)] at ht
      rw [ht]
      simp only [List.length_append, List.length_cons, List.length_nil]
      exact ⟨fun e => by omega, fun e => absurd (hc.mpr e) h⟩
  · obtain ⟨d0, d1, ht, _⟩ := Write_Absolute_Y_run dev SPEEDUP v s
    have hc := page_crossed_carry (operand1 dev s) (operand2 dev s) s.register_y h1 h2 hy
    by_cases h : page_crossed
        ((operand1 dev s + 256 * operand2 dev s + s.register_y) % 65536) (operand2 dev s)
    · rw [if_pos ⟨rfl, h⟩] at ht
      rw [ht]
      simp only [List.length_append, List.length_cons, List.length_nil]
      exact ⟨fun _ => hc.mp h, fun _ => trivial⟩
    · rw [if_neg (fun hh => h hh.2)] at ht
      rw [ht]
      simp only [List.length_append, List.length_cons, List.length_nil]
      exact ⟨fun e => by omega, fun e => absurd (hc.mpr e) h⟩
  · obtain ⟨lo, hi, d1, d2, ht, _, _, _, _, _, _, hlo, hhi⟩ :=
      Fetch_Indexed_Indirect_Y_run dev SPEEDUP 1 s
    have hc := page_crossed_carry lo hi s.register_y hlo hhi hy
    by_cases h : page_crossed ((lo + 256 * hi + s.register_y) % 65536) hi
    · rw [if_pos ⟨rfl, rfl, h⟩] at ht
      exact ⟨lo, hi, _, ht, fun _ => hc.mp h, fun _ => rfl⟩
    · rw [if_neg (fun hh => h hh.2.2)] at ht
      refine ⟨lo, hi, [BusEvent.read ((lo + 256 * hi + s.register_y) % 65536) d1], ht,
        fun e => ?_, fun e => absurd (hc.mpr e) h⟩
      simp at e

/-- Witness for C25: base `0xFFFF` with index `1` wraps from page `0xFF` to page `0x00`;
on the machine `demo` with base `0x10FF` and `X = Y = 1` the low byte carries and the
three absolute routines issue their extra read. -/
theorem page_cross_test_iff_low_byte_carry_witness :
    ((page_crossed ((0xFF + 256 * 0xFF + 1) % 65536) 0xFF ↔ 256 ≤ 0xFF + 1) ∧
      ((0xFF + 256 * 0xFF + 1) % 65536 / 256 ≠ 0xFF ↔ 256 ≤ 0xFF + 1) ∧
      (0xFF = 0xFF → 256 ≤ 0xFF + 1 → (0xFF + 256 * 0xFF + 1) % 65536 / 256 = 0x00)) ∧
    ((Fetch_Absolute_X ram SPEEDUP 1 (demo 0xFF 0x10 1 1 0x1100)).2.trace.length
        = (demo 0xFF 0x10 1 1 0x1100).trace.length + 4
      ↔ 256 ≤ operand1 ram (demo 0xFF 0x10 1 1 0x1100) + 1) ∧
    ((Write_Absolute_Y ram SPEEDUP 0x77 (demo 0xFF 0x10 1 1 0x1100)).trace.length
        = (demo 0xFF 0x10 1 1 0x1100).trace.length + 5
      ↔ 256 ≤ operand1 ram (demo 0xFF 0x10 1 1 0x1100) + 1) ∧
    (Fetch_Absolute_X ram SPEEDUP 1 (demo 0xFF 0x10 1 1 0x1100)).2.trace.length = 4 ∧
    (Write_Absolute_Y ram SPEEDUP 0x77 (demo 0xFF 0x10 1 1 0x1100)).trace.length = 5 :=
  ⟨(page_cross_test_iff_low_byte_carry ram 0x77 (demo 0xFF 0x10 1 1 0x1100)
      (by decide) (by decide)).1 0xFF 0xFF 1 (by decide) (by decide) (by decide),
   (page_cross_test_iff_low_byte_carry ram 0x77 (demo 0xFF 0x10 1 1 0x1100)
      (by decide) (by decide)).2.1,
   (page_cross_test_iff_low_byte_carry ram 0x77 (demo 0xFF 0x10 1 1 0x1100)
      (by decide) (by decide)).2.2.2.1,
   by decide, by decide⟩

end MCL64
